import Mathlib

/-!
The glib / gtk bridging layer of gotk3.

A shallow embedding of the bridging code of `glib/glib.go` and `gtk/gtk.go`:
the typed value marshaler (`GValue`, `Value.GoValue`), the callback registries
(`IdleAdd`, `Connect`, `ConnectWithData`) and the object wrappers of package gtk.

Conventions of the embedding

* A C pointer is a natural number, `0` being `NULL`.
* A Go `int` is 64 bits wide (the cgo targets amd64 / arm64); a C `gint` / `int`
  is 32 bits wide.  Conversions between the two are explicit (`toInt32`, `toInt64`).
* A Go `string` is a sequence of bytes; a C string is a byte buffer read up to
  its first NUL byte.
* A value of type `interface{}` is a `HostValue`: `nil`, or a dynamic type
  together with a payload.
* Results of native (C) calls are inputs of the embedded functions; the native
  calls a function makes are recorded, in order, in a log.
* A Go panic is the `Except.error` result of a function that can panic.
-/

namespace Glib

/-! ## Machine integers, pointers, strings -/

/-- A C pointer; `0` is `NULL`. -/
abbrev Ptr := Nat

/-- Conversion to a 32-bit signed integer (`C.gint(x)`, `C.int(x)`): two's complement wrap. -/
def toInt32 (x : Int) : Int := (x + 2147483648) % 4294967296 - 2147483648

/-- Conversion to a 64-bit signed integer (`int(x)`, `int64(x)`): two's complement wrap. -/
def toInt64 (x : Int) : Int :=
  (x + 9223372036854775808) % 18446744073709551616 - 9223372036854775808

/-- The values of a Go `int`. -/
def isGoInt (x : Int) : Prop := -9223372036854775808 ≤ x ∧ x < 9223372036854775808

instance (x : Int) : Decidable (isGoInt x) := by unfold isGoInt; infer_instance

/-- A byte. -/
abbrev Byte := Fin 256

/-- A Go string: any sequence of bytes (NUL bytes included). -/
abbrev GoString := List Byte

/-- A C string buffer: the bytes in memory, of which a reader sees those before the first NUL. -/
abbrev CBuf := List Byte

/-- The call `C.CString(s)`: a fresh buffer holding the bytes of `s` followed by a NUL. -/
def CString (s : GoString) : CBuf := s ++ [0]

/-- The C view of a buffer: the bytes before the first NUL (`strlen` bytes). -/
def cstr (b : CBuf) : List Byte := b.takeWhile (fun c => c != 0)

/-- The call `g_strdup(b)`: a fresh NUL-terminated copy of the C string in `b`. -/
def g_strdup (b : CBuf) : CBuf := cstr b ++ [0]

/-- The call `C.GoString(p)`: the Go string of the C string at `p`; `""` for `NULL`. -/
def GoStringOf : Option CBuf → GoString
  | none => []
  | some b => cstr b

deriving instance DecidableEq for Except

/-- A Go `error`: `nil` or an error carrying a message. -/
abbrev GoError := Option String

/-- The package variable `nilPtrErr`. -/
def nilPtrErr : String := "cgo returned unexpected nil pointer"

/-! ## Type conversions -/

/-- Function `gbool`: Go `bool` to `C.gboolean`. -/
def gbool (b : Bool) : Int := if b then 1 else 0

/-- Function `gobool`: `C.gboolean` to Go `bool`. -/
def gobool (b : Int) : Bool := if b != 0 then true else false

/-! ## The `Type` constants -/

/-- The type `glib.Type` (a Go `int`). -/
abbrev GlibType := Int

def _TYPE_FUNDAMENTAL_SHIFT : Nat := 2

/-- The constant declared at position `iota` of the `Type` block: `iota << _TYPE_FUNDAMENTAL_SHIFT`. -/
def typeConst (iota : Nat) : GlibType := ((iota <<< _TYPE_FUNDAMENTAL_SHIFT : Nat) : Int)

def TYPE_INVALID : GlibType := typeConst 0
def TYPE_INT : GlibType := typeConst 6
def TYPE_STRING : GlibType := typeConst 16
/-- The enumeration `reflect.Kind`. -/
inductive Kind where
  | Invalid | Bool | Int | Int8 | Int16 | Int32 | Int64
  | Uint | Uint8 | Uint16 | Uint32 | Uint64 | Uintptr
  | Float32 | Float64 | Complex64 | Complex128
  | Array | Chan | Func | Interface | Map | Ptr | Slice | String | Struct | UnsafePointer
  deriving DecidableEq, Repr

/-- The predeclared basic types (and `unsafe.Pointer`). -/
inductive Basic where
  | bool | int | int8 | int16 | int32 | int64
  | uint | uint8 | uint16 | uint32 | uint64 | uintptr
  | float32 | float64 | complex64 | complex128 | string | unsafePointer
  deriving DecidableEq, Repr

/-- Kinds of the composite types whose structure the embedding does not look into. -/
inductive CompositeKind where
  | array | chan | map | slice | struct
  deriving DecidableEq, Repr

/-- A Go type (`reflect.Type`). -/
inductive RType where
  /-- a predeclared basic type -/
  | basic (b : Basic)
  /-- a pointer type -/
  | pointer (elem : RType)
  /-- a defined type: declared name and underlying type -/
  | named (name : String) (underlying : RType)
  /-- an interface type literal with its method names; no methods is the empty interface -/
  | iface (methods : List String)
  /-- a function type: parameter types and result types -/
  | func (ins : List RType) (outs : List RType)
  /-- an array, channel, map, slice or struct type literal, identified by its text -/
  | composite (k : CompositeKind) (text : String)
  deriving Repr

mutual
/-- Decision procedure for equality of Go types (type identity). -/
def RType.decEq : (a b : RType) → Decidable (a = b)
  | .basic a, .basic b =>
      if h : a = b then isTrue (by rw [h]) else isFalse (by intro e; cases e; exact h rfl)
  | .pointer a, .pointer b =>
      match RType.decEq a b with
      | isTrue h => isTrue (by rw [h])
      | isFalse h => isFalse (by intro e; cases e; exact h rfl)
  | .named n a, .named m b =>
      if hn : n = m then
        match RType.decEq a b with
        | isTrue h => isTrue (by rw [hn, h])
        | isFalse h => isFalse (by intro e; cases e; exact h rfl)
      else isFalse (by intro e; cases e; exact hn rfl)
  | .iface a, .iface b =>
      if h : a = b then isTrue (by rw [h]) else isFalse (by intro e; cases e; exact h rfl)
  | .func i o, .func j p =>
      match RType.decEqList i j, RType.decEqList o p with
      | isTrue h, isTrue k => isTrue (by rw [h, k])
      | isFalse h, _ => isFalse (by intro e; cases e; exact h rfl)
      | _, isFalse k => isFalse (by intro e; cases e; exact k rfl)
  | .composite k s, .composite l t =>
      if h : k = l ∧ s = t then isTrue (by rw [h.1, h.2])
      else isFalse (by intro e; cases e; exact h ⟨rfl, rfl⟩)
  | .basic _, .pointer _ | .basic _, .named _ _ | .basic _, .iface _ | .basic _, .func _ _
  | .basic _, .composite _ _ => isFalse (by intro e; cases e)
  | .pointer _, .basic _ | .pointer _, .named _ _ | .pointer _, .iface _ | .pointer _, .func _ _
  | .pointer _, .composite _ _ => isFalse (by intro e; cases e)
  | .named _ _, .basic _ | .named _ _, .pointer _ | .named _ _, .iface _ | .named _ _, .func _ _
  | .named _ _, .composite _ _ => isFalse (by intro e; cases e)
  | .iface _, .basic _ | .iface _, .pointer _ | .iface _, .named _ _ | .iface _, .func _ _
  | .iface _, .composite _ _ => isFalse (by intro e; cases e)
  | .func _ _, .basic _ | .func _ _, .pointer _ | .func _ _, .named _ _ | .func _ _, .iface _
  | .func _ _, .composite _ _ => isFalse (by intro e; cases e)
  | .composite _ _, .basic _ | .composite _ _, .pointer _ | .composite _ _, .named _ _
  | .composite _ _, .iface _ | .composite _ _, .func _ _ => isFalse (by intro e; cases e)
/-- Decision procedure for equality of lists of Go types. -/
def RType.decEqList : (a b : List RType) → Decidable (a = b)
  | [], [] => isTrue rfl
  | a :: as, b :: bs =>
      match RType.decEq a b, RType.decEqList as bs with
      | isTrue h, isTrue k => isTrue (by rw [h, k])
      | isFalse h, _ => isFalse (by intro e; cases e; exact h rfl)
      | _, isFalse k => isFalse (by intro e; cases e; exact k rfl)
  | [], _ :: _ => isFalse (by intro e; cases e)
  | _ :: _, [] => isFalse (by intro e; cases e)
end

instance : DecidableEq RType := RType.decEq

/-- The kind of a basic type. -/
def Basic.kind : Basic → Kind
  | .bool => .Bool | .int => .Int | .int8 => .Int8 | .int16 => .Int16 | .int32 => .Int32
  | .int64 => .Int64 | .uint => .Uint | .uint8 => .Uint8 | .uint16 => .Uint16
  | .uint32 => .Uint32 | .uint64 => .Uint64 | .uintptr => .Uintptr
  | .float32 => .Float32 | .float64 => .Float64 | .complex64 => .Complex64
  | .complex128 => .Complex128 | .string => .String | .unsafePointer => .UnsafePointer

/-- The kind of a composite type. -/
def CompositeKind.kind : CompositeKind → Kind
  | .array => .Array | .chan => .Chan | .map => .Map | .slice => .Slice | .struct => .Struct

/-- The method `Type.Kind()`: the kind of a type is that of its underlying type. -/
def RType.kind : RType → Kind
  | .basic b => b.kind
  | .pointer _ => .Ptr
  | .named _ u => u.kind
  | .iface _ => .Interface
  | .func _ _ => .Func
  | .composite k _ => k.kind

/-- The underlying type of a type. -/
def RType.underlying : RType → RType
  | .named _ u => u.underlying
  | t => t

/-- The parameter types of a function type (`Type.NumIn()`, `Type.In(i)`); `none` when the
type is not a function type, where the reflect methods panic. -/
def RType.ins (t : RType) : Option (List RType) :=
  match t.underlying with
  | .func i _ => some i
  | _ => none

/-- The result types of a function type (`Type.NumOut()`, `Type.Out(i)`). -/
def RType.outs (t : RType) : Option (List RType) :=
  match t.underlying with
  | .func _ o => some o
  | _ => none

/-- Whether a type has a name (`Type.Name() != ""`): predeclared and defined types do. -/
def RType.hasName : RType → Bool
  | .basic _ => true
  | .named _ _ => true
  | _ => false

/-- The methods glib.go declares on the defined types of package glib, by the name of the
type: `ptr` selects the method set of the pointer type `*T` (methods of either receiver)
rather than that of `T` (methods with a value receiver only). -/
def declaredMethods (n : String) (ptr : Bool) : List String :=
  if n = "glib.CallbackContext" then
    (if ptr then ["Target", "Data", "Arg"] else [])
  else if n = "glib.CallbackArg" then ["String", "Int", "UInt"]
  else if n = "glib.Object" then
    (if ptr then ["Native", "toGObject", "Ref", "Unref", "RefSink", "IsFloating",
      "ForceFloating", "StopEmission", "connectCtx", "Connect", "ConnectWithData", "Set",
      "Emit", "HandlerBlock", "HandlerUnblock", "HandlerDisconnect"] else [])
  else if n = "glib.Value" then
    (if ptr then ["Native", "unset", "GetType", "GoValue", "SetInt", "SetString",
      "GetString"] else [])
  else []

/-- The method set of a type: the methods of an interface type, and the declared methods of a
defined type of package glib or of a pointer to one.  The embedding gives no methods to the
defined types of other packages. -/
def RType.methods : RType → List String
  | .iface ms => ms
  | .named n u => declaredMethods n false ++ (if u.kind = Kind.Interface then u.methods else [])
  | .pointer (.named n _) => declaredMethods n true
  | _ => []

/-- Package reflect, `directlyAssignable(T, V)`: a value of type `V` can be assigned to `T`
without conversion to an interface. -/
def directlyAssignable (T V : RType) : Bool :=
  if T = V then true
  else if (T.hasName && V.hasName) || T.kind != V.kind then false
  else decide (T.underlying = V.underlying)

/-- Package reflect, `implements(T, V)`: `T` is an interface type whose methods `V` has. -/
def implements (T V : RType) : Bool :=
  T.kind == Kind.Interface && T.methods.all (fun m => V.methods.contains m)

/-- The method `V.AssignableTo(T)` of package reflect. -/
def RType.AssignableTo (V T : RType) : Bool := directlyAssignable T V || implements T V

/-- What a Go value holds, by representation. -/
inductive Payload where
  /-- a boolean -/
  | bool (b : Bool)
  /-- an integer of any integer kind, as its mathematical value -/
  | int (i : Int)
  /-- a floating-point number, as its IEEE bits -/
  | float (bits : Nat)
  /-- a string -/
  | str (s : GoString)
  /-- a pointer (also `unsafe.Pointer`): an address, `0` being nil -/
  | ptr (p : Ptr)
  /-- a function value: nil (`none`) or the identity of its code -/
  | fn (code : Option Nat)
  /-- a `glib.Object` struct value, holding its `GObject` field -/
  | object (GObject : Ptr)
  /-- any other value, by an identifier -/
  | other (id : Nat)
  /-- the content of a value of an interface type: the dynamic type and the value held -/
  | boxed (t : RType) (p : Payload)
  deriving DecidableEq, Repr

/-- A value of type `interface{}`: nil, or a dynamic type with a value of that type.
It also stands for a `reflect.Value`, the zero (invalid) Value being `nil`. -/
inductive HostValue where
  | nil
  | val (t : RType) (p : Payload)
  deriving DecidableEq, Repr

/-- The dynamic type of an interface value; none for the nil interface. -/
def HostValue.dynType : HostValue → Option RType
  | .nil => none
  | .val t _ => some t

/-- The kind `reflect.ValueOf(x).Kind()`. -/
def HostValue.kind : HostValue → Kind
  | .nil => .Invalid
  | .val t _ => t.kind

/-- The integer held by a payload (type assertion to an integer type). -/
def Payload.toInt : Payload → Int
  | .int i => i
  | _ => 0

/-- The string held by a payload (type assertion to `string`). -/
def Payload.toStr : Payload → GoString
  | .str s => s
  | _ => []

/-- A Go `int` as an interface value. -/
def goInt (v : Int) : HostValue := .val (.basic .int) (.int v)

/-- A Go `string` as an interface value. -/
def goString (s : GoString) : HostValue := .val (.basic .string) (.str s)

/-! ## Native calls -/

/-- The calls into GLib that the glib package makes, with their arguments. -/
inductive NativeCall where
  | _g_value_init (t : Nat)
  | g_value_set_int (i : Int)
  | g_value_set_string (s : CBuf)
  | _g_idle_add (n : Int)
  | _g_signal_connect (obj : Ptr) (detailed : CBuf) (n : Int)
  | g_object_ref (p : Ptr)
  | g_object_unref (p : Ptr)
  | g_object_ref_sink (p : Ptr)
  deriving DecidableEq, Repr

/-! ## GValue -/

/-- The member of the `data[0]` union of a native `GValue` that is populated. -/
inductive GData where
  /-- all bytes zero, as `g_value_init` leaves it -/
  | zero
  /-- the member `v_int` (a `gint`) -/
  | v_int (i : Int)
  /-- the member `v_pointer` holding a C string, or `NULL` -/
  | v_string (s : Option CBuf)
  /-- any other member, by its raw bits -/
  | v_other (raw : Nat)
  deriving DecidableEq, Repr

/-- The native `GValue`: the discriminant `g_type` and the payload. -/
structure CGValue where
  g_type : Nat
  data : GData
  deriving DecidableEq, Repr

/-- The Go wrapper `Value`. -/
structure Value where
  GValue : CGValue
  deriving DecidableEq, Repr

/-- Conversion of a Go `int` to `C.GType` (`gsize`, 64 bits, unsigned). -/
def toGType (t : GlibType) : Nat := (t % 18446744073709551616).toNat

/-- GLib `g_value_set_int`: stores the `gint` when the container holds `G_TYPE_INT`,
and does nothing otherwise (`g_return_if_fail`). -/
def g_value_set_int (c : CGValue) (i : Int) : CGValue :=
  if c.g_type = 24 then { c with data := .v_int i } else c

/-- GLib `g_value_get_int`: the member `v_int` of a container holding `G_TYPE_INT`, and 0
for any other container (`g_return_val_if_fail`). -/
def g_value_get_int (c : CGValue) : Int :=
  if c.g_type = 24 then
    match c.data with
    | .v_int i => i
    | _ => 0
  else 0

/-- GLib `g_value_set_string`: stores a `g_strdup` copy of the C string when the container
holds `G_TYPE_STRING`, and does nothing otherwise. -/
def g_value_set_string (c : CGValue) (s : CBuf) : CGValue :=
  if c.g_type = 64 then { c with data := .v_string (some (g_strdup s)) } else c

/-- GLib `g_value_get_string`: the pointer stored in a container holding `G_TYPE_STRING`,
`NULL` when there is none, and `NULL` for any other container (`g_return_val_if_fail`). -/
def g_value_get_string (c : CGValue) : Option CBuf :=
  if c.g_type = 64 then
    match c.data with
    | .v_string s => s
    | _ => none
  else none

/-- The type id `G_TYPE_GTYPE`.  It is not one of the fundamental constants: the library
registers the type at run time, and the id of a registered type lies above
`G_TYPE_FUNDAMENTAL_MAX = 255 << 2`.  The parameter `k` numbers the ids the registration
can give. -/
def G_TYPE_GTYPE (k : Nat) : Nat := 1021 + k

/-- GLib `g_value_get_gtype`: the `GType` stored (in the member `v_pointer`) in a container
holding `G_TYPE_GTYPE`, and 0 for any other container (`g_return_val_if_fail`).  It does not
return the type of the container, which is what the C macro `G_VALUE_TYPE` reads. -/
def g_value_get_gtype (k : Nat) (c : CGValue) : Nat :=
  if c.g_type = G_TYPE_GTYPE k then
    match c.data with
    | .v_other raw => raw
    | _ => 0
  else 0

/-- Modelled from the spec: the C helper `_g_value_init` of `glib.go.h`, which is not among
the sources.  It allocates a zeroed native container and initialises it for the given type;
`ok` says whether the native side returned a container (`false`: it returned `NULL`). -/
def _g_value_init (ok : Bool) (t : Nat) : Option CGValue :=
  if ok then some { g_type := t, data := .zero } else none

/-- Function `ValueInit`. -/
def ValueInit (ok : Bool) (t : GlibType) : (Option Value × GoError) × List NativeCall :=
  match _g_value_init ok (toGType t) with
  | none => ((none, some nilPtrErr), [._g_value_init (toGType t)])
  | some c => ((some ⟨c⟩, none), [._g_value_init (toGType t)])

/-- Method `Value.GetType`: the result of `C.g_value_get_gtype` on the container, converted
to `Type`.  The id of `G_TYPE_GTYPE` is given by `k`. -/
def Value.GetType (k : Nat) (v : Value) : GlibType := toInt64 (g_value_get_gtype k v.GValue)

/-- Method `Value.SetInt`: the Go `int` is converted to `C.gint`. -/
def Value.SetInt (v : Value) (val : Int) : Value × List NativeCall :=
  (⟨g_value_set_int v.GValue (toInt32 val)⟩, [.g_value_set_int (toInt32 val)])

/-- Method `Value.SetString`: the Go string is copied to a C string, which the native
container duplicates. -/
def Value.SetString (v : Value) (val : GoString) : Value × List NativeCall :=
  (⟨g_value_set_string v.GValue (CString val)⟩, [.g_value_set_string (CString val)])

/-- Function `GValue`: converts a Go value to the comparable native container. -/
def GValue (ok : Bool) (v : HostValue) : (Option Value × GoError) × List NativeCall :=
  match v with
  | .val (.basic .int) p =>
      match ValueInit ok TYPE_INT with
      | ((some val, none), log) =>
          let r := val.SetInt p.toInt
          ((some r.1, none), log ++ r.2)
      | ((_, err), log) => ((none, err), log)
  | .val (.basic .string) p =>
      match ValueInit ok TYPE_STRING with
      | ((some val, none), log) =>
          let r := val.SetString p.toStr
          ((some r.1, none), log ++ r.2)
      | ((_, err), log) => ((none, err), log)
  | _ => ((none, some "Type not implemented"), [])

/-- Method `Value.GoValue`: converts a native container to the comparable Go value, by a
switch on the result of `GetType`.  The id of `G_TYPE_GTYPE` is given by `k`. -/
def Value.GoValue (k : Nat) (v : Value) : HostValue × GoError :=
  if v.GetType k = TYPE_INT then
    (goInt (toInt64 (g_value_get_int v.GValue)), none)
  else if v.GetType k = TYPE_STRING then
    (goString (GoStringOf (g_value_get_string v.GValue)), none)
  else (.nil, some "Type conversion not supported")

/-! ## GObject -/

/-- The Go struct `Object`, holding the native `*C.GObject`. -/
structure Object where
  GObject : Ptr
  deriving DecidableEq, Repr

/-- A non-nil Go pointer `*Object`: the address of the Go allocation and the struct stored
there (its field is never reassigned).  Two pointers are the same pointer when their
addresses are equal.  A possibly nil `*Object` is an `Option ObjectRef`. -/
structure ObjectRef where
  addr : Nat
  obj : Object
  deriving DecidableEq, Repr

/-- The Go type `*glib.Object`. -/
def objectPtrType : RType :=
  .pointer (.named "glib.Object" (.composite .struct "struct { GObject *C.GObject }"))

/-- The Go type `glib.Object`. -/
def objectType : RType := .named "glib.Object" (.composite .struct "struct { GObject *C.GObject }")

/-- A `*Object` as an interface value (`reflect.ValueOf(v)`): a typed pointer, nil included. -/
def objectValue : Option ObjectRef → HostValue
  | none => .val objectPtrType (.ptr 0)
  | some r => .val objectPtrType (.ptr r.addr)

/-- The field access `v.GObject` through a `*Object`; a nil pointer dereference panics. -/
def GObjectOf : Option ObjectRef → Except String Ptr
  | none => .error "invalid memory address or nil pointer dereference"
  | some r => .ok r.obj.GObject

/-- The C cast `toGObject` of `glib.go.h` (`glib.ToGObject`): the same address. -/
def ToGObject (p : Ptr) : Ptr := p

/-! ## Callback registries -/

/-- The Go struct `CallbackContext`. -/
structure CallbackContext where
  f : HostValue
  cbi : Ptr
  target : HostValue
  data : HostValue
  deriving DecidableEq, Repr

/-- The C struct `idleinfo` that `_g_idle_add` returns: the slot token and the source id. -/
structure IdleInfo where
  func_n : Int
  id : Nat
  deriving DecidableEq, Repr

/-- The Go struct `idleFnContext`. -/
structure idleFnContext where
  f : HostValue
  args : List HostValue
  idl : Option IdleInfo
  deriving DecidableEq, Repr

/-- The package state: the two registries (slices of possibly nil pointers) and the log of
the native calls made so far. -/
structure State where
  callbackContexts : List (Option CallbackContext)
  idleFnContexts : List (Option idleFnContext)
  native : List NativeCall
  deriving DecidableEq, Repr

/-- The declared parameter count `reflect.ValueOf(f).Type().NumIn()` of a function value;
none when `f` is not of a function type. -/
def HostValue.NumIn (f : HostValue) : Option Nat := (f.dynType.bind RType.ins).map List.length

/-- Modelled from the spec: the C helper `_g_idle_add` of `glib.go.h`, which is not among the
sources.  It asks the native library for an idle source carrying the slot index as its only
token and returns the record of that source; `id` is the source id the native library chose. -/
def _g_idle_add (func_n : Int) (id : Nat) : IdleInfo := { func_n := func_n, id := id }

/-- The loop of `IdleAdd` over `datas`, from index `i` on, with the values collected so
far: a panic, or the error of the first kind mismatch (if any) with the collected values. -/
def IdleAdd.loop (ins : List RType) :
    Nat → List HostValue → List HostValue → Except String (GoError × List HostValue)
  | _, vals, [] => .ok (none, vals)
  | i, vals, d :: ds =>
      match ins[i]? with
      | none => .error "reflect: Func index out of bounds"
      | some ntharg =>
          if ntharg.kind != d.kind then
            .ok (some ("Types of arg" ++ toString i ++ "do not match"), vals)
          else IdleAdd.loop ins (i + 1) (vals ++ [d]) ds

/-- Function `IdleAdd`.  The input `id` is the source id chosen by the native library. -/
def IdleAdd (st : State) (f : HostValue) (datas : List HostValue) (id : Nat) :
    Except String ((Nat × GoError) × State) :=
  if f.kind != Kind.Func then .ok ((0, some "f is not a function"), st)
  else
    match f.dynType.bind RType.ins with
    | none => .error "reflect: NumIn of non-func type"
    | some ins =>
        if ins.length != datas.length then
          .ok ((0, some "Number of arguments do not match"), st)
        else
          match IdleAdd.loop ins 0 [] datas with
          | .error p => .error p
          | .ok (some e, _) => .ok ((0, some e), st)
          | .ok (none, vals) =>
              let ctx : idleFnContext := { f := f, args := vals, idl := none }
              let nIdleFns := (st.idleFnContexts ++ [some ctx]).length
              let n := toInt32 (toInt32 nIdleFns - 1)
              let idl := _g_idle_add n id
              .ok ((idl.id, none),
                { st with
                  idleFnContexts := st.idleFnContexts ++ [some { ctx with idl := some idl }]
                  native := st.native ++ [._g_idle_add n] })

/-- Method `Object.connectCtx`.  The input `cbi` is the record `_g_signal_connect` returns. -/
def Object.connectCtx (st : State) (v : Option ObjectRef) (ctx : CallbackContext)
    (s : GoString) (_f : HostValue) (cbi : Ptr) : Except String (Nat × State) :=
  let cstr := CString s
  let nCbCtxs := st.callbackContexts.length
  match GObjectOf v with
  | .error p => .error p
  | .ok gobject =>
      .ok (nCbCtxs,
        { st with
          callbackContexts := st.callbackContexts ++ [some { ctx with cbi := cbi }]
          native := st.native ++ [._g_signal_connect gobject cstr (toInt32 nCbCtxs)] })

/-- Method `Object.Connect`. -/
def Object.Connect (st : State) (v : Option ObjectRef) (s : GoString) (f : HostValue)
    (cbi : Ptr) : Except String (Nat × State) :=
  Object.connectCtx st v ⟨f, 0, objectValue v, .nil⟩ s f cbi

/-- Method `Object.ConnectWithData`. -/
def Object.ConnectWithData (st : State) (v : Option ObjectRef) (s : GoString) (f : HostValue)
    (data : HostValue) (cbi : Ptr) : Except String (Nat × State) :=
  Object.connectCtx st v ⟨f, 0, objectValue v, data⟩ s f cbi

/-- Package reflect, the argument check of `Value.Call`: the call panics unless there are as
many arguments as parameters, no argument is the zero Value, and the type of each argument
is assignable to its parameter type. -/
def callArgsOk : List RType → List HostValue → Bool
  | [], [] => true
  | t :: ts, .val vt _ :: vs => vt.AssignableTo t && callArgsOk ts vs
  | _, _ => false

/-- Method `Object.Ref`, on a non-nil receiver: the native call it makes. -/
def Object.Ref (v : ObjectRef) : NativeCall := .g_object_ref v.obj.GObject

/-- Method `Object.Unref`, on a non-nil receiver: the native call it makes. -/
def Object.Unref (v : ObjectRef) : NativeCall := .g_object_unref v.obj.GObject

/-- Method `Object.RefSink`, on a non-nil receiver: the native call it makes. -/
def Object.RefSink (v : ObjectRef) : NativeCall := .g_object_ref_sink v.obj.GObject

/-- The Go struct `InitiallyUnowned`, embedding a `*Object`. -/
structure InitiallyUnowned where
  Object : Option ObjectRef
  deriving DecidableEq, Repr

/-! ## Host functions and the idle trampoline -/

/-- The behaviour of the host functions: for the identity of the code and the arguments of a
call, the panic the body raises or its results by position.  The body of a host function
does not touch the registries. -/
abbrev FuncEnv := Nat → List HostValue → Except String (Nat → Payload)

/-- An invocation of a host function: the function value and the arguments it received. -/
structure HostCall where
  f : HostValue
  args : List HostValue
  deriving DecidableEq, Repr

/-- The results of a call as `reflect.Value`s: one per declared result type, in order, the
value at position `i` being of the `i`-th declared type. -/
def callResults : List RType → Nat → (Nat → Payload) → List HostValue
  | [], _, _ => []
  | t :: ts, i, r => .val t (r i) :: callResults ts (i + 1) r

/-- Package reflect, `reflect.ValueOf(f).Call(args)` for functions that are not variadic.
The call panics, without running the function, when `f` is not of a function kind, when it
is a nil function, and when the arguments fail the check `callArgsOk`; otherwise the function
is invoked once with `args`.  The result is the list of invocations made and the outcome. -/
def Call (env : FuncEnv) (f : HostValue) (args : List HostValue) :
    List HostCall × Except String (List HostValue) :=
  match f with
  | .val t (.fn code) =>
      match t.underlying with
      | .func ins outs =>
          match code with
          | none => ([], .error "reflect: call of nil function")
          | some c =>
              if callArgsOk ins args then
                match env c args with
                | .error p => ([⟨f, args⟩], .error p)
                | .ok r => ([⟨f, args⟩], .ok (callResults outs 0 r))
              else ([], .error "reflect: Call with arguments that do not match the parameters")
      | _ => ([], .error "reflect: call of reflect.Value.Call on a value that is no function")
  | _ => ([], .error "reflect: call of reflect.Value.Call on a value that is no function")

/-- The method `Value.Bool()` on a value of kind Bool. -/
def HostValue.Bool : HostValue → Bool
  | .val _ (.bool b) => b
  | _ => false

/-- The exported trampoline `_go_glib_idle_fn`.  The input `func_n` is the slot token in the
native record `idl`; the result is the list of host invocations made and either a panic or
the value written to `idl.ret`. -/
def _go_glib_idle_fn (env : FuncEnv) (st : State) (func_n : Int) :
    List HostCall × Except String Int :=
  if func_n < 0 then ([], .error "index out of range")
  else
    match st.idleFnContexts[func_n.toNat]? with
    | none => ([], .error "index out of range")
    | some none => ([], .error "invalid memory address or nil pointer dereference")
    | some (some ctx) =>
        match Call env ctx.f ctx.args with
        | (calls, .error p) => (calls, .error p)
        | (calls, .ok rv) =>
            match rv with
            | [r] =>
                if r.kind = Kind.Bool then (calls, .ok (gbool r.Bool))
                else (calls, .ok (gbool false))
            | _ => (calls, .ok (gbool false))

/-- The exported function `_go_nil_unused_idle_ctx`: the assignment
`idleFnContexts.s[int(n)] = nil`, which panics when the index is out of range. -/
def _go_nil_unused_idle_ctx (st : State) (n : Int) : Except String State :=
  if n < 0 then .error "index out of range"
  else if n.toNat < st.idleFnContexts.length then
    .ok { st with idleFnContexts := st.idleFnContexts.set n.toNat none }
  else .error "index out of range"

/-- An operation on the idle registry: a call of `IdleAdd`, a firing of the trampoline
`_go_glib_idle_fn` or a call of `_go_nil_unused_idle_ctx`. -/
inductive IdleOp where
  | add (f : HostValue) (datas : List HostValue) (id : Nat)
  | fire (func_n : Int)
  | unused (n : Int)
  deriving DecidableEq, Repr

/-- A run of idle operations: the package state, the accepted registrations so far (the
function and the data of each, in order of acceptance) and whether an operation panicked,
after which nothing more is executed. -/
structure IdleRun where
  st : State
  registered : List (HostValue × List HostValue)
  aborted : Bool

/-- The run before any operation, on empty registries. -/
def IdleRun.init : IdleRun := ⟨⟨[], [], []⟩, [], false⟩

/-- One operation of a run. -/
def IdleRun.step (env : FuncEnv) (r : IdleRun) (op : IdleOp) : IdleRun :=
  if r.aborted then r
  else
    match op with
    | .add f datas id =>
        match IdleAdd r.st f datas id with
        | .error _ => { r with aborted := true }
        | .ok ((_, some _), st) => { r with st := st }
        | .ok ((_, none), st) => { r with st := st, registered := r.registered ++ [(f, datas)] }
    | .fire func_n =>
        match (_go_glib_idle_fn env r.st func_n).2 with
        | .error _ => { r with aborted := true }
        | .ok _ => r
    | .unused n =>
        match _go_nil_unused_idle_ctx r.st n with
        | .error _ => { r with aborted := true }
        | .ok st => { r with st := st }

/-- A run of a sequence of operations. -/
def IdleRun.run (env : FuncEnv) (r : IdleRun) (ops : List IdleOp) : IdleRun :=
  ops.foldl (IdleRun.step env) r

/-- The number of live (non-nil) slots of a registry. -/
def liveSlots {α : Type} (s : List (Option α)) : Nat := (s.filter Option.isSome).length

/-! ## Object.Set -/

/-- The C types of the variables whose address `Object.Set` hands to the native setter. -/
inductive CType where
  | gboolean | gint8 | gint16 | gint32 | gint64 | gint
  | guchar | guint16 | guint32 | guint64 | guint | gfloat | gdouble | int
  deriving DecidableEq, Repr

/-- The width in bits of a C type. -/
def CType.bits : CType → Nat
  | .gboolean => 32 | .gint8 => 8 | .gint16 => 16 | .gint32 => 32 | .gint64 => 64 | .gint => 32
  | .guchar => 8 | .guint16 => 16 | .guint32 => 32 | .guint64 => 64 | .guint => 32
  | .gfloat => 32 | .gdouble => 64 | .int => 32

/-- What the pointer `p` of `Object.Set` designates. -/
inductive SetArg where
  /-- the address of a fresh C variable of the given type holding the given value (for the
  floating-point types, its IEEE bits); never nil -/
  | cell (t : CType) (v : Int)
  /-- the address of a fresh C string; never nil -/
  | cstring (buf : CBuf)
  /-- the given address itself, nil when it is `0` -/
  | raw (addr : Ptr)
  deriving DecidableEq, Repr

/-- Whether the pointer is nil (`p == nil`). -/
def SetArg.isNil : SetArg → Bool
  | .raw a => a == 0
  | _ => false

/-- A call `_g_object_set_one(object, name, p)`. -/
structure SetOneCall where
  object : Ptr
  name : CBuf
  p : SetArg
  deriving DecidableEq, Repr

/-- The Go type `*C.GObject`. -/
def cGObjectPtrType : RType := .pointer (.named "C.GObject" (.composite .struct "struct _GObject"))

/-- The integer held by a payload as an unsigned 32-bit value (`C.guint(x)`). -/
def toUint32 (x : Int) : Int := x % 4294967296

/-- The address held by a payload: a pointer, or an integer used as one (`uintptr`). -/
def Payload.toPtr : Payload → Ptr
  | .ptr a => a
  | .int i => i.toNat
  | _ => 0

/-- The boolean held by a payload (type assertion to `bool`). -/
def Payload.toBool : Payload → Bool
  | .bool b => b
  | _ => false

/-- The IEEE bits held by a payload (type assertion to a floating-point type). -/
def Payload.toFloat : Payload → Int
  | .float bits => bits
  | _ => 0

/-- The first statement of `Object.Set`: a value of dynamic type `glib.Object` is replaced
by its `GObject` field, of type `*C.GObject`. -/
def Object.Set.unwrap (value : HostValue) : HostValue :=
  match value with
  | .val t (.object g) => if t = objectType then .val cGObjectPtrType (.ptr g) else value
  | _ => value

/-- The type switch of `Object.Set` with its default case: the pointer `p` (`none` is the
nil pointer the function starts with), or a panic of package reflect. -/
def Object.Set.convert (value : HostValue) : Except String (Option SetArg) :=
  match value with
  | .val (.basic .bool) x => .ok (some (.cell .gboolean (gbool x.toBool)))
  | .val (.basic .int8) x => .ok (some (.cell .gint8 x.toInt))
  | .val (.basic .int16) x => .ok (some (.cell .gint16 x.toInt))
  | .val (.basic .int32) x => .ok (some (.cell .gint32 x.toInt))
  | .val (.basic .int64) x => .ok (some (.cell .gint64 x.toInt))
  | .val (.basic .int) x => .ok (some (.cell .gint (toInt32 x.toInt)))
  | .val (.basic .uint8) x => .ok (some (.cell .guchar x.toInt))
  | .val (.basic .uint16) x => .ok (some (.cell .guint16 x.toInt))
  | .val (.basic .uint32) x => .ok (some (.cell .guint32 x.toInt))
  | .val (.basic .uint64) x => .ok (some (.cell .guint64 x.toInt))
  | .val (.basic .uint) x => .ok (some (.cell .guint (toUint32 x.toInt)))
  | .val (.basic .uintptr) x => .ok (some (.raw x.toPtr))
  | .val (.basic .float32) x => .ok (some (.cell .gfloat x.toFloat))
  | .val (.basic .float64) x => .ok (some (.cell .gdouble x.toFloat))
  | .val (.basic .string) x => .ok (some (.cstring (CString x.toStr)))
  | .val (.basic .unsafePointer) x => .ok (some (.raw x.toPtr))
  | other =>
      match other.kind with
      | .Int | .Int8 | .Int16 | .Int32 | .Int64 =>
          match other with
          | .val _ x => .ok (some (.cell .int (toInt32 x.toInt)))
          | .nil => .ok none
      | .Uintptr => .error "reflect: call of reflect.Value.Pointer on uintptr Value"
      | _ => .ok none

/-- Method `Object.Set`: the error returned and the native calls made, or a panic. -/
def Object.Set (v : Option ObjectRef) (name : GoString) (value : HostValue) :
    Except String (GoError × List SetOneCall) :=
  let cstr := CString name
  match Object.Set.convert (Object.Set.unwrap value) with
  | .error e => .error e
  | .ok none => .ok (some "Unable to perform type conversion", [])
  | .ok (some p) =>
      if p.isNil then .ok (some "Unable to perform type conversion", [])
      else
        match GObjectOf v with
        | .error e => .error e
        | .ok gobject => .ok (none, [⟨gobject, cstr, p⟩])

/-! ## Reference counting -/

/-- Modelled from the spec: a native object of the GObject library, which is not among the
sources, as its reference count and its floating flag. -/
structure NativeObject where
  ref_count : Nat
  floating : Bool
  deriving DecidableEq, Repr

/-- Modelled from the spec: the effect of a native call on the object at address `p`.
`g_object_ref` adds a reference, `g_object_ref_sink` turns a floating reference into an
owned one and adds a reference to an object that is not floating, `g_object_unref` drops a
reference; calls on other addresses and other calls leave the object as it is. -/
def NativeObject.apply (p : Ptr) (o : NativeObject) : NativeCall → NativeObject
  | .g_object_ref q => if q = p then { o with ref_count := o.ref_count + 1 } else o
  | .g_object_ref_sink q =>
      if q = p then
        if o.floating then { o with floating := false }
        else { o with ref_count := o.ref_count + 1 }
      else o
  | .g_object_unref q => if q = p then { o with ref_count := o.ref_count - 1 } else o
  | _ => o

/-- The effect of a sequence of native calls on the object at address `p`. -/
def NativeObject.run (p : Ptr) (o : NativeObject) (calls : List NativeCall) : NativeObject :=
  calls.foldl (NativeObject.apply p) o

/-! ## The callback context and the signal trampoline -/

/-- Package reflect, `Value.Interface()`: a panic on the zero Value; for a Value of an
interface type the value it holds (the nil interface when it holds none); for a Value of any
other type the value itself. -/
def Interface : HostValue → Except String HostValue
  | .nil => .error "reflect: call of reflect.Value.Interface on zero Value"
  | .val t p =>
      if t.kind = Kind.Interface then
        match p with
        | .boxed t1 p1 => .ok (.val t1 p1)
        | _ => .ok .nil
      else .ok (.val t p)

/-- Method `CallbackContext.Target`, on a non-nil receiver. -/
def CallbackContext.Target (c : CallbackContext) : Except String HostValue := Interface c.target

/-- Method `CallbackContext.Data`, on a non-nil receiver. -/
def CallbackContext.Data (c : CallbackContext) : Except String HostValue := Interface c.data

/-- A call of `Object.connectCtx` in progress: its arguments, the record `cbi` that
`_g_signal_connect` will return, the number of steps taken, and the local variable
`nCbCtxs`. -/
structure ConnectCall where
  v : ObjectRef
  ctx : CallbackContext
  s : GoString
  cbi : Ptr
  pc : Nat
  nCbCtxs : Nat
  deriving DecidableEq, Repr

/-- One step of a call of `Object.connectCtx`: the read of the registry length under the
read lock, then the native connection with that length as token, then the append under the
write lock; a call that has taken its three steps has returned `nCbCtxs`. -/
def ConnectCall.step (st : State) (c : ConnectCall) : State × ConnectCall :=
  match c.pc with
  | 0 => (st, { c with pc := 1, nCbCtxs := st.callbackContexts.length })
  | 1 =>
      ({ st with native := st.native ++
          [._g_signal_connect c.v.obj.GObject (CString c.s) (toInt32 c.nCbCtxs)] },
       { c with pc := 2, ctx := { c.ctx with cbi := c.cbi } })
  | 2 => ({ st with callbackContexts := st.callbackContexts ++ [some c.ctx] }, { c with pc := 3 })
  | _ => (st, c)

/-- The execution of several calls of `Object.connectCtx` under a schedule. -/
def runConnects (st : State) (calls : List ConnectCall) : List Nat → State × List ConnectCall
  | [] => (st, calls)
  | i :: rest =>
      match calls[i]? with
      | none => runConnects st calls rest
      | some c => runConnects (c.step st).1 (calls.set i (c.step st).2) rest

/-- A call of `IdleAdd` in progress, after its arguments have been checked: the function and
the collected values, the source id the native library will choose, the number of steps
taken, the slot at which the context has been appended, and the local variable `nIdleFns`. -/
structure IdleAddCall where
  f : HostValue
  vals : List HostValue
  id : Nat
  pc : Nat
  slot : Nat
  nIdleFns : Nat
  deriving DecidableEq, Repr

/-- One step of a call of `IdleAdd` after the checks: the append under the write lock, then
the read of the registry length under the read lock, then the native call with that length
minus one as token and the assignment of its result to the field `idl` of the context. -/
def IdleAddCall.step (st : State) (c : IdleAddCall) : State × IdleAddCall :=
  match c.pc with
  | 0 =>
      ({ st with idleFnContexts := st.idleFnContexts ++ [some ⟨c.f, c.vals, none⟩] },
       { c with pc := 1, slot := st.idleFnContexts.length })
  | 1 => (st, { c with pc := 2, nIdleFns := st.idleFnContexts.length })
  | 2 =>
      ({ st with
          idleFnContexts := st.idleFnContexts.set c.slot
            (some ⟨c.f, c.vals, some (_g_idle_add (toInt32 (toInt32 c.nIdleFns - 1)) c.id)⟩)
          native := st.native ++ [._g_idle_add (toInt32 (toInt32 c.nIdleFns - 1))] },
       { c with pc := 3 })
  | _ => (st, c)

/-- The execution of several calls of `IdleAdd` under a schedule. -/
def runIdleAdds (st : State) (calls : List IdleAddCall) : List Nat → State × List IdleAddCall
  | [] => (st, calls)
  | i :: rest =>
      match calls[i]? with
      | none => runIdleAdds st calls rest
      | some c => runIdleAdds (c.step st).1 (calls.set i (c.step st).2) rest

end Glib

namespace Gtk

/-- The package variable `nilPtrErr` of package gtk. -/
def nilPtrErr : String := "cgo returned unexpected nil pointer"

/-- The calls into GTK (and, for reference counting, GLib) that the modelled functions of
package gtk make, with their arguments. -/
inductive NativeCall where
  | gtk_button_new
  | gtk_button_get_event_window (button : Glib.Ptr)
  | gtk_bin_get_child (bin : Glib.Ptr)
  | gtk_widget_get_parent (widget : Glib.Ptr)
  | gtk_widget_get_parent_window (widget : Glib.Ptr)
  | gtk_notebook_get_action_widget (notebook : Glib.Ptr) (packType : Int)
  | _gtk_message_dialog_new (parent : Glib.Ptr) (flags mType buttons : Int) (text : Glib.CBuf)
  | glib (call : Glib.NativeCall)
  deriving DecidableEq, Repr

/-- The Go struct `Widget`. -/
structure Widget where
  InitiallyUnowned : Glib.InitiallyUnowned
  deriving DecidableEq, Repr

/-- The Go struct `Container`. -/
structure Container where
  Widget : Widget
  deriving DecidableEq, Repr

/-- The Go struct `Bin`. -/
structure Bin where
  Container : Container
  deriving DecidableEq, Repr

/-- The Go struct `Button`. -/
structure Button where
  Bin : Bin
  deriving DecidableEq, Repr

/-- The Go struct `Window`. -/
structure Window where
  Bin : Bin
  deriving DecidableEq, Repr

/-- The Go struct `Dialog`. -/
structure Dialog where
  Window : Window
  deriving DecidableEq, Repr

/-- The Go struct `MessageDialog`. -/
structure MessageDialog where
  Dialog : Dialog
  deriving DecidableEq, Repr

/-- Modelled from the spec: the struct `gdk.Window` of package gdk, which is not among the
sources; a wrapped object embedding a `*glib.Object`, as the composite literal
`&gdk.Window{obj}` of package gtk builds it. -/
structure GdkWindow where
  Object : Option Glib.ObjectRef
  deriving DecidableEq, Repr

/-- The promoted field `GObject` of a wrapper, read through its embedded `*glib.Object`. -/
def Widget.GObject (w : Widget) : Except String Glib.Ptr := Glib.GObjectOf w.InitiallyUnowned.Object

/-- The embedded `*glib.Object` of a widget. -/
def Widget.Object (w : Widget) : Option Glib.ObjectRef := w.InitiallyUnowned.Object

/-- Method `Widget.Native` on a `*Widget` (`none` is the nil pointer): `NULL` for a nil
receiver or a `NULL` object, the object pointer (cast by `toGtkWidget`) otherwise. -/
def Widget.Native : Option Widget → Except String Glib.Ptr
  | none => .ok 0
  | some w =>
      match w.GObject with
      | .error p => .error p
      | .ok g => if g = 0 then .ok 0 else .ok g

/-- Method `Bin.Native` on a `*Bin`. -/
def Bin.Native : Option Bin → Except String Glib.Ptr
  | none => .ok 0
  | some b =>
      match b.Container.Widget.GObject with
      | .error p => .error p
      | .ok g => if g = 0 then .ok 0 else .ok g

/-- Method `Button.Native` on a `*Button`. -/
def Button.Native : Option Button → Except String Glib.Ptr
  | none => .ok 0
  | some b =>
      match b.Bin.Container.Widget.GObject with
      | .error p => .error p
      | .ok g => if g = 0 then .ok 0 else .ok g

/-- Method `Window.Native` on a `*Window`. -/
def Window.Native : Option Window → Except String Glib.Ptr
  | none => .ok 0
  | some w =>
      match w.Bin.Container.Widget.GObject with
      | .error p => .error p
      | .ok g => if g = 0 then .ok 0 else .ok g

/-- Method `Window.toWindow` on a `*Window`. -/
def Window.toWindow : Option Window → Except String Glib.Ptr
  | none => .ok 0
  | some w => Window.Native (some w)

/-- A value of the interface type `IWindow`: the nil interface, or a `*Window` (possibly a
nil pointer), the only type of the package with a `toWindow` method. -/
inductive IWindow where
  | nil
  | window (w : Option Window)
  deriving DecidableEq, Repr

/-- The method call `parent.toWindow()` on an interface value; it panics on the nil interface. -/
def IWindow.toWindow : IWindow → Except String Glib.Ptr
  | .nil => .error "invalid memory address or nil pointer dereference"
  | .window w => Window.toWindow w

/-- The Go runtime as the wrappers use it: the address of the next allocation, the objects
that have the finalizer `(*glib.Object).Unref` set (in the order set), and the log of the
native calls made so far. -/
structure Runtime where
  nextAddr : Nat
  finalizers : List Glib.ObjectRef
  native : List NativeCall
  deriving DecidableEq, Repr

/-- The allocation `&glib.Object{glib.ToGObject(unsafe.Pointer(c))}`: a fresh Go object. -/
def newObject (rt : Runtime) (c : Glib.Ptr) : Glib.ObjectRef × Runtime :=
  (⟨rt.nextAddr, ⟨Glib.ToGObject c⟩⟩, { rt with nextAddr := rt.nextAddr + 1 })

/-- The statement `runtime.SetFinalizer(obj, (*glib.Object).Unref)`. -/
def SetFinalizer (rt : Runtime) (obj : Glib.ObjectRef) : Runtime :=
  { rt with finalizers := rt.finalizers ++ [obj] }

/-- Appends a native call to the log. -/
def Runtime.call (rt : Runtime) (c : NativeCall) : Runtime :=
  { rt with native := rt.native ++ [c] }

/-- Function `ButtonNew`.  The input `c` is the result of `gtk_button_new`. -/
def ButtonNew (rt : Runtime) (c : Glib.Ptr) : (Option Button × Glib.GoError) × Runtime :=
  let rt := rt.call .gtk_button_new
  if c = 0 then ((none, some nilPtrErr), rt)
  else
    let (obj, rt) := newObject rt c
    let b : Button := ⟨⟨⟨⟨⟨some obj⟩⟩⟩⟩⟩
    let rt := rt.call (.glib (Glib.Object.RefSink obj))
    let rt := SetFinalizer rt obj
    ((some b, none), rt)

/-- Function `MessageDialogNew`.  The input `s` is the text `fmt.Sprintf(format, a...)`, and
`c` is the result of `_gtk_message_dialog_new`.  The result is the returned `*MessageDialog`. -/
def MessageDialogNew (rt : Runtime) (parent : IWindow) (flags mType buttons : Int)
    (s : Glib.GoString) (c : Glib.Ptr) : Except String (Option MessageDialog × Runtime) :=
  let cstr := Glib.CString s
  match parent.toWindow with
  | .error p => .error p
  | .ok pw =>
      let rt := rt.call (._gtk_message_dialog_new pw flags mType buttons cstr)
      let (obj, rt) := newObject rt c
      let m : MessageDialog := ⟨⟨⟨⟨⟨⟨⟨some obj⟩⟩⟩⟩⟩⟩⟩
      let rt := rt.call (.glib (Glib.Object.RefSink obj))
      let rt := SetFinalizer rt obj
      .ok (some m, rt)

/-- Method `Bin.GetChild`.  The input `c` is the result of `gtk_bin_get_child`. -/
def Bin.GetChild (rt : Runtime) (v : Option Bin) (c : Glib.Ptr) :
    Except String ((Option Widget × Glib.GoError) × Runtime) :=
  match Bin.Native v with
  | .error p => .error p
  | .ok n =>
      let rt := rt.call (.gtk_bin_get_child n)
      if c = 0 then .ok ((none, some nilPtrErr), rt)
      else
        let (obj, rt) := newObject rt c
        let w : Widget := ⟨⟨some obj⟩⟩
        let rt := rt.call (.glib (Glib.Object.RefSink obj))
        let rt := SetFinalizer rt obj
        .ok ((some w, none), rt)

/-- Method `Widget.GetParent`.  The input `c` is the result of `gtk_widget_get_parent`. -/
def Widget.GetParent (rt : Runtime) (v : Option Widget) (c : Glib.Ptr) :
    Except String ((Option Widget × Glib.GoError) × Runtime) :=
  match Widget.Native v with
  | .error p => .error p
  | .ok n =>
      let rt := rt.call (.gtk_widget_get_parent n)
      if c = 0 then .ok ((none, some nilPtrErr), rt)
      else
        let (obj, rt) := newObject rt c
        let w : Widget := ⟨⟨some obj⟩⟩
        let rt := rt.call (.glib (Glib.Object.RefSink obj))
        let rt := SetFinalizer rt obj
        .ok ((some w, none), rt)

/-- Method `Button.GetEventWindow`.  The input `c` is the result of
`gtk_button_get_event_window`. -/
def Button.GetEventWindow (rt : Runtime) (v : Option Button) (c : Glib.Ptr) :
    Except String ((Option GdkWindow × Glib.GoError) × Runtime) :=
  match Button.Native v with
  | .error p => .error p
  | .ok n =>
      let rt := rt.call (.gtk_button_get_event_window n)
      if c = 0 then .ok ((none, some nilPtrErr), rt)
      else
        let (obj, rt) := newObject rt c
        let w : GdkWindow := ⟨some obj⟩
        let rt := rt.call (.glib (Glib.Object.Ref obj))
        let rt := SetFinalizer rt obj
        .ok ((some w, none), rt)

/-- Method `Widget.GetParentWindow`.  The input `c` is the result of
`gtk_widget_get_parent_window`.  The test after the native call is on the receiver `v`. -/
def Widget.GetParentWindow (rt : Runtime) (v : Option Widget) (c : Glib.Ptr) :
    Except String ((Option GdkWindow × Glib.GoError) × Runtime) :=
  match Widget.Native v with
  | .error p => .error p
  | .ok n =>
      let rt := rt.call (.gtk_widget_get_parent_window n)
      if v = none then .ok ((none, some nilPtrErr), rt)
      else
        let (obj, rt) := newObject rt c
        let w : GdkWindow := ⟨some obj⟩
        let rt := rt.call (.glib (Glib.Object.Ref obj))
        let rt := SetFinalizer rt obj
        .ok ((some w, none), rt)

/-- The Go struct `Notebook`. -/
structure Notebook where
  Container : Container
  deriving DecidableEq, Repr

/-- Method `Notebook.Native` on a `*Notebook`. -/
def Notebook.Native : Option Notebook → Except String Glib.Ptr
  | none => .ok 0
  | some n =>
      match n.Container.Widget.GObject with
      | .error p => .error p
      | .ok g => if g = 0 then .ok 0 else .ok g

/-- The Go type `*gtk.Widget`. -/
def widgetPtrType : Glib.RType :=
  .pointer (.named "gtk.Widget" (.composite .struct "struct { glib.InitiallyUnowned }"))

/-- Package runtime, `SetFinalizer(x, (*glib.Object).Unref)` for an `x` of type `t`: the
type of `x` must be assignable to the parameter type of the finalizer, which is
`*glib.Object`, and the runtime aborts the program when it is not (the message is the one
for a `*gtk.Widget`, the only other type the wrappers pass).  `obj` is the `Object` that a
finalizer set on a `*glib.Object` belongs to. -/
def SetFinalizerOf (rt : Runtime) (t : Glib.RType) (obj : Glib.ObjectRef) :
    Except String Runtime :=
  if t.AssignableTo Glib.objectPtrType then .ok (SetFinalizer rt obj)
  else .error "runtime.SetFinalizer: cannot pass *gtk.Widget to finalizer func(*glib.Object)"

/-- Method `Notebook.GetActionWidget`.  The input `c` is the result of
`gtk_notebook_get_action_widget`.  The reference is taken through the wrapper
(`w.RefSink()`, the promoted method of the embedded `*glib.Object`), and the finalizer is set
on the wrapper `w`, a `*Widget`, not on `obj`.  The result pairs the outcome with the runtime
as the method leaves it, also when the program is aborted. -/
def Notebook.GetActionWidget (rt : Runtime) (v : Option Notebook) (packType : Int)
    (c : Glib.Ptr) : Except String (Option Widget × Glib.GoError) × Runtime :=
  match Notebook.Native v with
  | .error p => (.error p, rt)
  | .ok n =>
      let rt := rt.call (.gtk_notebook_get_action_widget n (Glib.toUint32 packType))
      if c = 0 then (.ok (none, some nilPtrErr), rt)
      else
        let (obj, rt) := newObject rt c
        let w : Widget := ⟨⟨some obj⟩⟩
        let rt := rt.call (.glib (Glib.Object.RefSink obj))
        match SetFinalizerOf rt widgetPtrType obj with
        | .error p => (.error p, rt)
        | .ok rt => (.ok (some w, none), rt)

/-- Function `gbool` of package gtk. -/
def gbool (b : Bool) : Int := if b then 1 else 0

/-- Function `gobool` of package gtk. -/
def gobool (b : Int) : Bool := if b != 0 then true else false

/-- Function `testBoolConvs`. -/
def testBoolConvs : Glib.GoError :=
  let b := gobool (gbool true)
  if b != true then some "Unexpected bool conversion result"
  else
    let cb := gbool (gobool 0)
    if cb != 0 then some "Unexpected bool conversion result"
    else none

/-- The GLib reference-counting calls in a log of package gtk. -/
def glibCalls : List NativeCall → List Glib.NativeCall
  | [] => []
  | .glib c :: rest => c :: glibCalls rest
  | _ :: rest => glibCalls rest

/-- A run of the finalizer `(*glib.Object).Unref` that `runtime.SetFinalizer` registered for
`obj`: the native call it makes. -/
def runFinalizer (obj : Glib.ObjectRef) : Glib.NativeCall := Glib.Object.Unref obj

/-! ## Constants -/

/-- The constant at position `iota` of a block declared as `iota`. -/
def iotaConst (iota : Nat) : Int := (iota : Int)

/-- The constant at position `iota` of a block declared as `1 << iota`. -/
def flagConst (iota : Nat) : Int := ((1 <<< iota : Nat) : Int)

/-- The constant at position `iota` of the block declared as `1 << (iota - 1)`, which starts
at the second line of the `InputHints` block (`iota = 1`). -/
def hintConst (iota : Nat) : Int := ((1 <<< (iota - 1) : Nat) : Int)

/-- The constant at position `iota` of the block declared as `-(iota + 1)`. -/
def responseConst (iota : Nat) : Int := -((iota : Int) + 1)


def ALIGN_FILL : Int := iotaConst 0
def ALIGN_START : Int := iotaConst 1
def ALIGN_END : Int := iotaConst 2
def ALIGN_CENTER : Int := iotaConst 3

def BUTTONS_NONE : Int := iotaConst 0
def BUTTONS_OK : Int := iotaConst 1
def BUTTONS_CLOSE : Int := iotaConst 2
def BUTTONS_CANCEL : Int := iotaConst 3
def BUTTONS_YES_NO : Int := iotaConst 4
def BUTTONS_OK_CANCEL : Int := iotaConst 5

def DIALOG_MODAL : Int := flagConst 0
def DIALOG_DESTROY_WITH_PARENT : Int := flagConst 1

def ENTRY_ICON_PRIMARY : Int := iotaConst 0
def ENTRY_ICON_SECONDARY : Int := iotaConst 1

def IMAGE_EMPTY : Int := iotaConst 0
def IMAGE_PIXBUF : Int := iotaConst 1
def IMAGE_STOCK : Int := iotaConst 2
def IMAGE_ICON_SET : Int := iotaConst 3
def IMAGE_ANIMATION : Int := iotaConst 4
def IMAGE_ICON_NAME : Int := iotaConst 5
def IMAGE_GICON : Int := iotaConst 6

def INPUT_HINT_NONE : Int := 0
def INPUT_HINT_SPELLCHECK : Int := hintConst 1
def INPUT_HINT_NO_SPELLCHECK : Int := hintConst 2
def INPUT_HINT_WORD_COMPLETION : Int := hintConst 3
def INPUT_HINT_LOWERCASE : Int := hintConst 4
def INPUT_HINT_UPPERCASE_CHARS : Int := hintConst 5
def INPUT_HINT_UPPERCASE_WORDS : Int := hintConst 6
def INPUT_HINT_UPPERCASE_SENTENCES : Int := hintConst 7
def INPUT_HINT_INHIBIT_OSK : Int := hintConst 8

def INPUT_PURPOSE_FREE_FORM : Int := iotaConst 0
def INPUT_PURPOSE_ALPHA : Int := iotaConst 1
def INPUT_PURPOSE_DIGITS : Int := iotaConst 2
def INPUT_PURPOSE_NUMBER : Int := iotaConst 3
def INPUT_PURPOSE_PHONE : Int := iotaConst 4
def INPUT_PURPOSE_URL : Int := iotaConst 5
def INPUT_PURPOSE_EMAIL : Int := iotaConst 6
def INPUT_PURPOSE_NAME : Int := iotaConst 7
def INPUT_PURPOSE_PASSWORD : Int := iotaConst 8
def INPUT_PURPOSE_PIN : Int := iotaConst 9

def MESSAGE_INFO : Int := iotaConst 0
def MESSAGE_WARNING : Int := iotaConst 1
def MESSAGE_QUESTION : Int := iotaConst 2
def MESSAGE_ERROR : Int := iotaConst 3
def MESSAGE_OTHER : Int := iotaConst 4

def ORIENTATION_HORIZONTAL : Int := iotaConst 0
def ORIENTATION_VERTICAL : Int := iotaConst 1

def PACK_START : Int := iotaConst 0
def PACK_END : Int := iotaConst 1

def POLICY_ALWAYS : Int := iotaConst 0
def POLICY_AUTOMATIC : Int := iotaConst 1
def POLICY_NEVER : Int := iotaConst 2

def POS_LEFT : Int := iotaConst 0
def POS_RIGHT : Int := iotaConst 1
def POS_TOP : Int := iotaConst 2
def POS_BOTTOM : Int := iotaConst 3

def RELIEF_NORMAL : Int := iotaConst 0
def RELIEF_HALF : Int := iotaConst 1
def RELIEF_NONE : Int := iotaConst 2

def RESPONSE_NONE : Int := responseConst 0
def RESPONSE_REJECT : Int := responseConst 1
def RESPONSE_ACCEPT : Int := responseConst 2
def RESPONSE_DELETE_EVENT : Int := responseConst 3
def RESPONSE_OK : Int := responseConst 4
def RESPONSE_CANCEL : Int := responseConst 5
def RESPONSE_CLOSE : Int := responseConst 6
def RESPONSE_YES : Int := responseConst 7
def RESPONSE_NO : Int := responseConst 8
def RESPONSE_APPLY : Int := responseConst 9
def RESPONSE_HELP : Int := responseConst 10

def TREE_MODEL_ITERS_PERSIST : Int := flagConst 0
def TREE_MODEL_LIST_ONLY : Int := flagConst 1

def WIN_POS_NONE : Int := iotaConst 0
def WIN_POS_CENTER : Int := iotaConst 1
def WIN_POS_MOUSE : Int := iotaConst 2
def WIN_POS_CENTER_ALWAYS : Int := iotaConst 3
def WIN_POS_CENTER_ON_PARENT : Int := iotaConst 4

def WINDOW_TOPLEVEL : Int := iotaConst 0
def WINDOW_POPUP : Int := iotaConst 1

/-! The values of the enumerations of the GTK 3 C headers (`gtkenums.h`, `gtkdialog.h`,
`gtkentry.h`, `gtkimage.h`, `gtkmessagedialog.h`, `gtktreemodel.h`, `gtkwindow.h`), which
cgo reads at build time.  They are facts about the native library, written here as its
headers declare them. -/


def C.GTK_ALIGN_FILL : Int := 0
def C.GTK_ALIGN_START : Int := 1
def C.GTK_ALIGN_END : Int := 2
def C.GTK_ALIGN_CENTER : Int := 3

def C.GTK_BUTTONS_NONE : Int := 0
def C.GTK_BUTTONS_OK : Int := 1
def C.GTK_BUTTONS_CLOSE : Int := 2
def C.GTK_BUTTONS_CANCEL : Int := 3
def C.GTK_BUTTONS_YES_NO : Int := 4
def C.GTK_BUTTONS_OK_CANCEL : Int := 5

def C.GTK_DIALOG_MODAL : Int := 1
def C.GTK_DIALOG_DESTROY_WITH_PARENT : Int := 2

def C.GTK_ENTRY_ICON_PRIMARY : Int := 0
def C.GTK_ENTRY_ICON_SECONDARY : Int := 1

def C.GTK_IMAGE_EMPTY : Int := 0
def C.GTK_IMAGE_PIXBUF : Int := 1
def C.GTK_IMAGE_STOCK : Int := 2
def C.GTK_IMAGE_ICON_SET : Int := 3
def C.GTK_IMAGE_ANIMATION : Int := 4
def C.GTK_IMAGE_ICON_NAME : Int := 5
def C.GTK_IMAGE_GICON : Int := 6

def C.GTK_INPUT_HINT_NONE : Int := 0
def C.GTK_INPUT_HINT_SPELLCHECK : Int := 1
def C.GTK_INPUT_HINT_NO_SPELLCHECK : Int := 2
def C.GTK_INPUT_HINT_WORD_COMPLETION : Int := 4
def C.GTK_INPUT_HINT_LOWERCASE : Int := 8
def C.GTK_INPUT_HINT_UPPERCASE_CHARS : Int := 16
def C.GTK_INPUT_HINT_UPPERCASE_WORDS : Int := 32
def C.GTK_INPUT_HINT_UPPERCASE_SENTENCES : Int := 64
def C.GTK_INPUT_HINT_INHIBIT_OSK : Int := 128

def C.GTK_INPUT_PURPOSE_FREE_FORM : Int := 0
def C.GTK_INPUT_PURPOSE_ALPHA : Int := 1
def C.GTK_INPUT_PURPOSE_DIGITS : Int := 2
def C.GTK_INPUT_PURPOSE_NUMBER : Int := 3
def C.GTK_INPUT_PURPOSE_PHONE : Int := 4
def C.GTK_INPUT_PURPOSE_URL : Int := 5
def C.GTK_INPUT_PURPOSE_EMAIL : Int := 6
def C.GTK_INPUT_PURPOSE_NAME : Int := 7
def C.GTK_INPUT_PURPOSE_PASSWORD : Int := 8
def C.GTK_INPUT_PURPOSE_PIN : Int := 9

def C.GTK_MESSAGE_INFO : Int := 0
def C.GTK_MESSAGE_WARNING : Int := 1
def C.GTK_MESSAGE_QUESTION : Int := 2
def C.GTK_MESSAGE_ERROR : Int := 3
def C.GTK_MESSAGE_OTHER : Int := 4

def C.GTK_ORIENTATION_HORIZONTAL : Int := 0
def C.GTK_ORIENTATION_VERTICAL : Int := 1

def C.GTK_PACK_START : Int := 0
def C.GTK_PACK_END : Int := 1

def C.GTK_POLICY_ALWAYS : Int := 0
def C.GTK_POLICY_AUTOMATIC : Int := 1
def C.GTK_POLICY_NEVER : Int := 2

def C.GTK_POS_LEFT : Int := 0
def C.GTK_POS_RIGHT : Int := 1
def C.GTK_POS_TOP : Int := 2
def C.GTK_POS_BOTTOM : Int := 3

def C.GTK_RELIEF_NORMAL : Int := 0
def C.GTK_RELIEF_HALF : Int := 1
def C.GTK_RELIEF_NONE : Int := 2

def C.GTK_RESPONSE_NONE : Int := -1
def C.GTK_RESPONSE_REJECT : Int := -2
def C.GTK_RESPONSE_ACCEPT : Int := -3
def C.GTK_RESPONSE_DELETE_EVENT : Int := -4
def C.GTK_RESPONSE_OK : Int := -5
def C.GTK_RESPONSE_CANCEL : Int := -6
def C.GTK_RESPONSE_CLOSE : Int := -7
def C.GTK_RESPONSE_YES : Int := -8
def C.GTK_RESPONSE_NO : Int := -9
def C.GTK_RESPONSE_APPLY : Int := -10
def C.GTK_RESPONSE_HELP : Int := -11

def C.GTK_TREE_MODEL_ITERS_PERSIST : Int := 1
def C.GTK_TREE_MODEL_LIST_ONLY : Int := 2

def C.GTK_WIN_POS_NONE : Int := 0
def C.GTK_WIN_POS_CENTER : Int := 1
def C.GTK_WIN_POS_MOUSE : Int := 2
def C.GTK_WIN_POS_CENTER_ALWAYS : Int := 3
def C.GTK_WIN_POS_CENTER_ON_PARENT : Int := 4

def C.GTK_WINDOW_TOPLEVEL : Int := 0
def C.GTK_WINDOW_POPUP : Int := 1

/-- The table `tests` of `testConsts`: each Go constant with the C constant of its name. -/
def testConsts.tests : List (Int × Int) :=
  [(ALIGN_FILL, C.GTK_ALIGN_FILL), (ALIGN_START, C.GTK_ALIGN_START), (ALIGN_END, C.GTK_ALIGN_END), (ALIGN_CENTER, C.GTK_ALIGN_CENTER),
   (BUTTONS_NONE, C.GTK_BUTTONS_NONE), (BUTTONS_OK, C.GTK_BUTTONS_OK), (BUTTONS_CLOSE, C.GTK_BUTTONS_CLOSE), (BUTTONS_CANCEL, C.GTK_BUTTONS_CANCEL), (BUTTONS_YES_NO, C.GTK_BUTTONS_YES_NO), (BUTTONS_OK_CANCEL, C.GTK_BUTTONS_OK_CANCEL),
   (DIALOG_MODAL, C.GTK_DIALOG_MODAL), (DIALOG_DESTROY_WITH_PARENT, C.GTK_DIALOG_DESTROY_WITH_PARENT),
   (ENTRY_ICON_PRIMARY, C.GTK_ENTRY_ICON_PRIMARY), (ENTRY_ICON_SECONDARY, C.GTK_ENTRY_ICON_SECONDARY),
   (IMAGE_EMPTY, C.GTK_IMAGE_EMPTY), (IMAGE_PIXBUF, C.GTK_IMAGE_PIXBUF), (IMAGE_STOCK, C.GTK_IMAGE_STOCK), (IMAGE_ICON_SET, C.GTK_IMAGE_ICON_SET), (IMAGE_ANIMATION, C.GTK_IMAGE_ANIMATION), (IMAGE_ICON_NAME, C.GTK_IMAGE_ICON_NAME), (IMAGE_GICON, C.GTK_IMAGE_GICON),
   (INPUT_HINT_NONE, C.GTK_INPUT_HINT_NONE), (INPUT_HINT_SPELLCHECK, C.GTK_INPUT_HINT_SPELLCHECK), (INPUT_HINT_NO_SPELLCHECK, C.GTK_INPUT_HINT_NO_SPELLCHECK), (INPUT_HINT_WORD_COMPLETION, C.GTK_INPUT_HINT_WORD_COMPLETION), (INPUT_HINT_LOWERCASE, C.GTK_INPUT_HINT_LOWERCASE), (INPUT_HINT_UPPERCASE_CHARS, C.GTK_INPUT_HINT_UPPERCASE_CHARS), (INPUT_HINT_UPPERCASE_WORDS, C.GTK_INPUT_HINT_UPPERCASE_WORDS), (INPUT_HINT_UPPERCASE_SENTENCES, C.GTK_INPUT_HINT_UPPERCASE_SENTENCES), (INPUT_HINT_INHIBIT_OSK, C.GTK_INPUT_HINT_INHIBIT_OSK),
   (INPUT_PURPOSE_FREE_FORM, C.GTK_INPUT_PURPOSE_FREE_FORM), (INPUT_PURPOSE_ALPHA, C.GTK_INPUT_PURPOSE_ALPHA), (INPUT_PURPOSE_DIGITS, C.GTK_INPUT_PURPOSE_DIGITS), (INPUT_PURPOSE_NUMBER, C.GTK_INPUT_PURPOSE_NUMBER), (INPUT_PURPOSE_PHONE, C.GTK_INPUT_PURPOSE_PHONE), (INPUT_PURPOSE_URL, C.GTK_INPUT_PURPOSE_URL), (INPUT_PURPOSE_EMAIL, C.GTK_INPUT_PURPOSE_EMAIL), (INPUT_PURPOSE_NAME, C.GTK_INPUT_PURPOSE_NAME), (INPUT_PURPOSE_PASSWORD, C.GTK_INPUT_PURPOSE_PASSWORD), (INPUT_PURPOSE_PIN, C.GTK_INPUT_PURPOSE_PIN),
   (MESSAGE_INFO, C.GTK_MESSAGE_INFO), (MESSAGE_WARNING, C.GTK_MESSAGE_WARNING), (MESSAGE_QUESTION, C.GTK_MESSAGE_QUESTION), (MESSAGE_ERROR, C.GTK_MESSAGE_ERROR), (MESSAGE_OTHER, C.GTK_MESSAGE_OTHER),
   (ORIENTATION_HORIZONTAL, C.GTK_ORIENTATION_HORIZONTAL), (ORIENTATION_VERTICAL, C.GTK_ORIENTATION_VERTICAL),
   (PACK_START, C.GTK_PACK_START), (PACK_END, C.GTK_PACK_END),
   (POLICY_ALWAYS, C.GTK_POLICY_ALWAYS), (POLICY_AUTOMATIC, C.GTK_POLICY_AUTOMATIC), (POLICY_NEVER, C.GTK_POLICY_NEVER),
   (POS_LEFT, C.GTK_POS_LEFT), (POS_RIGHT, C.GTK_POS_RIGHT), (POS_TOP, C.GTK_POS_TOP), (POS_BOTTOM, C.GTK_POS_BOTTOM),
   (RELIEF_NORMAL, C.GTK_RELIEF_NORMAL), (RELIEF_HALF, C.GTK_RELIEF_HALF), (RELIEF_NONE, C.GTK_RELIEF_NONE),
   (RESPONSE_NONE, C.GTK_RESPONSE_NONE), (RESPONSE_REJECT, C.GTK_RESPONSE_REJECT), (RESPONSE_ACCEPT, C.GTK_RESPONSE_ACCEPT), (RESPONSE_DELETE_EVENT, C.GTK_RESPONSE_DELETE_EVENT), (RESPONSE_OK, C.GTK_RESPONSE_OK), (RESPONSE_CANCEL, C.GTK_RESPONSE_CANCEL), (RESPONSE_CLOSE, C.GTK_RESPONSE_CLOSE), (RESPONSE_YES, C.GTK_RESPONSE_YES), (RESPONSE_NO, C.GTK_RESPONSE_NO), (RESPONSE_APPLY, C.GTK_RESPONSE_APPLY), (RESPONSE_HELP, C.GTK_RESPONSE_HELP),
   (TREE_MODEL_ITERS_PERSIST, C.GTK_TREE_MODEL_ITERS_PERSIST), (TREE_MODEL_LIST_ONLY, C.GTK_TREE_MODEL_LIST_ONLY),
   (WIN_POS_NONE, C.GTK_WIN_POS_NONE), (WIN_POS_CENTER, C.GTK_WIN_POS_CENTER), (WIN_POS_MOUSE, C.GTK_WIN_POS_MOUSE), (WIN_POS_CENTER_ALWAYS, C.GTK_WIN_POS_CENTER_ALWAYS), (WIN_POS_CENTER_ON_PARENT, C.GTK_WIN_POS_CENTER_ON_PARENT),
   (WINDOW_TOPLEVEL, C.GTK_WINDOW_TOPLEVEL), (WINDOW_POPUP, C.GTK_WINDOW_POPUP)]

/-- The loop of `testConsts` from index `i` on: the error of the first mismatch, if any. -/
def testConsts.loop : Nat → List (Int × Int) → Glib.GoError
  | _, [] => none
  | i, (iv, gtk) :: rest =>
      if iv != gtk then
        some ("Constant mismatch " ++ toString i ++ ": " ++ toString iv ++ " != " ++ toString gtk)
      else testConsts.loop (i + 1) rest

/-- Function `testConsts`. -/
def testConsts : Glib.GoError := testConsts.loop 0 testConsts.tests

/-! ## ListStore, TreeSelection, EntryBuffer -/

/-- The Go struct `TreeModel`. -/
structure TreeModel where
  Object : Option Glib.ObjectRef
  deriving DecidableEq, Repr

/-- The Go struct `ListStore`. -/
structure ListStore where
  Object : Option Glib.ObjectRef
  TreeModel : TreeModel
  deriving DecidableEq, Repr

/-- The Go struct `TreeSelection`. -/
structure TreeSelection where
  Object : Option Glib.ObjectRef
  deriving DecidableEq, Repr

/-- The Go struct `EntryBuffer`. -/
structure EntryBuffer where
  Object : Option Glib.ObjectRef
  deriving DecidableEq, Repr

/-- The body shared by the `Native` methods of the wrappers that embed a `*glib.Object`
directly: `NULL` for a nil receiver or a `NULL` object, the object pointer otherwise. -/
def nativeOf : Option (Option Glib.ObjectRef) → Except String Glib.Ptr
  | none => .ok 0
  | some o =>
      match Glib.GObjectOf o with
      | .error p => .error p
      | .ok g => if g = 0 then .ok 0 else .ok g

/-- Method `ListStore.Native` on a `*ListStore`. -/
def ListStore.Native (v : Option ListStore) : Except String Glib.Ptr :=
  nativeOf (v.map (fun x => x.Object))

/-- Method `TreeSelection.Native` on a `*TreeSelection`. -/
def TreeSelection.Native (v : Option TreeSelection) : Except String Glib.Ptr :=
  nativeOf (v.map (fun x => x.Object))

/-- Method `EntryBuffer.Native` on a `*EntryBuffer`. -/
def EntryBuffer.Native (v : Option EntryBuffer) : Except String Glib.Ptr :=
  nativeOf (v.map (fun x => x.Object))

/-- Method `TreeModel.toTreeModel` on a `*TreeModel`. -/
def TreeModel.toTreeModel (v : Option TreeModel) : Except String Glib.Ptr :=
  nativeOf (v.map (fun x => x.Object))

/-- Method `TreeIter.Native` on a `*TreeIter`, given as the address of the Go struct (`none`
is the nil pointer): the address of its only field, and a panic on nil. -/
def TreeIter.Native : Option Glib.Ptr → Except String Glib.Ptr
  | none => .error "invalid memory address or nil pointer dereference"
  | some a => .ok a

/-- A call `gtk_list_store_set_value(store, iter, column, value)`. -/
structure ListStoreWrite where
  store : Glib.Ptr
  iter : Glib.Ptr
  column : Int
  value : Glib.CGValue
  deriving DecidableEq, Repr

/-- The loop of `ListStore.Set` over `values`, from index `i` on.  The input `oks` says, for
each index, whether the native allocation of `glib.GValue` for that value succeeds.  The
result is a panic, or the error returned with the list-store writes made, in order. -/
def ListStore.Set.loop (oks : Nat → Bool) (v : Option ListStore) (iter : Option Glib.Ptr)
    (columns : List Int) : Nat → List Glib.HostValue →
    Except String (Glib.GoError × List ListStoreWrite)
  | _, [] => .ok (none, [])
  | i, val :: rest =>
      match Glib.GValue (oks i) val with
      | ((_, some err), _) => .ok (some err, [])
      | ((none, none), _) => .error "invalid memory address or nil pointer dereference"
      | ((some gv, none), _) =>
          match ListStore.Native v, TreeIter.Native iter, columns[i]? with
          | .ok store, .ok it, some col =>
              match ListStore.Set.loop oks v iter columns (i + 1) rest with
              | .error p => .error p
              | .ok (e, ws) => .ok (e, ⟨store, it, Glib.toInt32 col, gv.GValue⟩ :: ws)
          | .error p, _, _ => .error p
          | _, .error p, _ => .error p
          | _, _, none => .error "index out of range"

/-- Method `ListStore.Set`. -/
def ListStore.Set (oks : Nat → Bool) (v : Option ListStore) (iter : Option Glib.Ptr)
    (columns : List Int) (values : List Glib.HostValue) :
    Except String (Glib.GoError × List ListStoreWrite) :=
  if columns.length != values.length then
    .ok (some "columns and values lengths do not match", [])
  else ListStore.Set.loop oks v iter columns 0 values

/-- A value of the interface type `ITreeModel`: the nil interface, or a `*TreeModel`
(possibly a nil pointer). -/
inductive ITreeModel where
  | nil
  | treeModel (m : Option TreeModel)
  deriving DecidableEq, Repr

/-- The method call `m.toTreeModel()` on an interface value; it panics on the nil interface. -/
def ITreeModel.toTreeModel : ITreeModel → Except String Glib.Ptr
  | .nil => .error "invalid memory address or nil pointer dereference"
  | .treeModel m => TreeModel.toTreeModel m

/-- A call `gtk_tree_selection_get_selected(selection, model, iter)`; `model` is the
out-pointer, `none` when it is `NULL`, else the `GtkTreeModel*` stored at its target. -/
structure GetSelectedCall where
  selection : Glib.Ptr
  model : Option Glib.Ptr
  iter : Glib.Ptr
  deriving DecidableEq, Repr

/-- Method `TreeSelection.GetSelected`.  The argument `model` is a `*ITreeModel` (`none` is
the nil pointer); the input `c` is the result of the native call.  The local `pcmodel` is
declared without a value, so it is nil when it is tested. -/
def TreeSelection.GetSelected (v : Option TreeSelection) (model : Option ITreeModel)
    (iter : Option Glib.Ptr) (c : Int) : Except String (Bool × GetSelectedCall) :=
  let pcmodel0 : Option Glib.Ptr := none
  let pcmodel : Except String (Option Glib.Ptr) :=
    if pcmodel0.isSome then
      match model with
      | none => .error "invalid memory address or nil pointer dereference"
      | some m =>
          match m.toTreeModel with
          | .error p => .error p
          | .ok cmodel => .ok (some cmodel)
    else .ok none
  match pcmodel, TreeSelection.Native v, TreeIter.Native iter with
  | .ok pc, .ok sel, .ok it => .ok (gobool c, ⟨sel, pc, it⟩)
  | .error p, _, _ => .error p
  | _, .error p, _ => .error p
  | _, _, .error p => .error p

/-- The native calls of the text methods of `EntryBuffer`, with their arguments. -/
inductive EntryBufferCall where
  | gtk_entry_buffer_set_text (buffer : Glib.Ptr) (chars : Glib.CBuf) (n_chars : Int)
  | gtk_entry_buffer_insert_text (buffer : Glib.Ptr) (position : Int) (chars : Glib.CBuf)
      (n_chars : Int)
  | gtk_entry_buffer_emit_inserted_text (buffer : Glib.Ptr) (position : Int)
      (chars : Glib.CBuf) (n_chars : Int)
  deriving DecidableEq, Repr

/-- The length `n_chars` that a native text call receives. -/
def EntryBufferCall.n_chars : EntryBufferCall → Int
  | .gtk_entry_buffer_set_text _ _ n => n
  | .gtk_entry_buffer_insert_text _ _ _ n => n
  | .gtk_entry_buffer_emit_inserted_text _ _ _ n => n

/-- Method `EntryBuffer.SetText`: the length passed is `C.gint(len(text))`, the number of
bytes of the Go string. -/
def EntryBuffer.SetText (v : Option EntryBuffer) (text : Glib.GoString) :
    Except String EntryBufferCall :=
  let cstr := Glib.CString text
  match EntryBuffer.Native v with
  | .error p => .error p
  | .ok b => .ok (.gtk_entry_buffer_set_text b cstr (Glib.toInt32 text.length))

/-- Method `EntryBuffer.InsertText`.  The input `c` is the result of the native call. -/
def EntryBuffer.InsertText (v : Option EntryBuffer) (position : Nat) (text : Glib.GoString)
    (c : Nat) : Except String (Nat × EntryBufferCall) :=
  let cstr := Glib.CString text
  match EntryBuffer.Native v with
  | .error p => .error p
  | .ok b =>
      .ok (c, .gtk_entry_buffer_insert_text b (Glib.toUint32 position) cstr
        (Glib.toInt32 text.length))

/-- Method `EntryBuffer.EmitInsertedText`: the length passed is `C.guint(len(text))`. -/
def EntryBuffer.EmitInsertedText (v : Option EntryBuffer) (pos : Nat) (text : Glib.GoString) :
    Except String EntryBufferCall :=
  let cstr := Glib.CString text
  match EntryBuffer.Native v with
  | .error p => .error p
  | .ok b =>
      .ok (.gtk_entry_buffer_emit_inserted_text b (Glib.toUint32 pos) cstr
        (Glib.toUint32 text.length))

/-- Whether a byte is a continuation byte of UTF-8 (`10xxxxxx`). -/
def isCont (b : Glib.Byte) : Bool := 128 ≤ b.val && b.val < 192

/-- The code points of a UTF-8 string; none when the bytes are not well-formed sequences of
one to four bytes (a lead byte followed by the continuation bytes it announces). -/
def utf8Decode : List Glib.Byte → Option (List Nat)
  | [] => some []
  | b0 :: rest =>
      if b0.val < 128 then (utf8Decode rest).map (fun cs => b0.val :: cs)
      else if 192 ≤ b0.val && b0.val < 224 then
        match rest with
        | b1 :: r =>
            if isCont b1 then
              (utf8Decode r).map (fun cs => ((b0.val - 192) * 64 + (b1.val - 128)) :: cs)
            else none
        | _ => none
      else if 224 ≤ b0.val && b0.val < 240 then
        match rest with
        | b1 :: b2 :: r =>
            if isCont b1 && isCont b2 then
              (utf8Decode r).map (fun cs =>
                ((b0.val - 224) * 4096 + (b1.val - 128) * 64 + (b2.val - 128)) :: cs)
            else none
        | _ => none
      else if 240 ≤ b0.val && b0.val < 248 then
        match rest with
        | b1 :: b2 :: b3 :: r =>
            if isCont b1 && isCont b2 && isCont b3 then
              (utf8Decode r).map (fun cs =>
                ((b0.val - 240) * 262144 + (b1.val - 128) * 4096 + (b2.val - 128) * 64 +
                  (b3.val - 128)) :: cs)
            else none
        | _ => none
      else none

/-- The number of characters (code points) of a UTF-8 string; none when it is not valid. -/
def utf8Chars (text : Glib.GoString) : Option Nat := (utf8Decode text).map List.length

end Gtk

/-! # Properties -/

namespace Gotk3

open Glib

/-! ## Helper lemmas -/

theorem toInt32_of_range (v : Int) (h : -2147483648 ≤ v ∧ v < 2147483648) : toInt32 v = v := by
  unfold toInt32; omega

theorem toInt64_of_range (v : Int) (h : isGoInt v) : toInt64 v = v := by
  unfold isGoInt at h; unfold toInt64; omega

theorem toInt64_isGoInt (v : Int) : isGoInt (toInt64 v) := by
  unfold isGoInt toInt64; omega

theorem cstr_append_nul (s : List Byte) (h : (0 : Byte) ∉ s) : cstr (s ++ [0]) = s := by
  induction s with
  | nil => simp [cstr]
  | cons a t ih =>
      have ha : a ≠ 0 := fun e => h (by simp [e])
      have ht : (0 : Byte) ∉ t := fun e => h (by simp [e])
      have := ih ht
      have hb : (a != 0) = true := by simp [ha]
      simp only [cstr] at this ⊢
      rw [List.cons_append, List.takeWhile_cons, hb, if_pos rfl, this]

theorem getType_fundamental (k n : Nat) (d : GData) (h : n ≤ 1020) :
    Value.GetType k ⟨⟨n, d⟩⟩ = TYPE_INVALID := by
  have hne : ¬ (n = G_TYPE_GTYPE k) := by unfold G_TYPE_GTYPE; omega
  simp only [Value.GetType, g_value_get_gtype, hne, if_false]
  rfl

theorem GoValue_fundamental (k n : Nat) (d : GData) (h : n ≤ 1020) :
    Value.GoValue k ⟨⟨n, d⟩⟩ = (.nil, some "Type conversion not supported") := by
  have h1 : TYPE_INVALID ≠ TYPE_INT := by decide
  have h2 : TYPE_INVALID ≠ TYPE_STRING := by decide
  simp only [Value.GoValue, getType_fundamental k n d h, h1, h2, if_false]

theorem getType_gtype (k raw : Nat) :
    Value.GetType k ⟨⟨G_TYPE_GTYPE k, .v_other raw⟩⟩ = toInt64 raw := by
  simp only [Value.GetType, g_value_get_gtype, if_true]

theorem GValue_int_eq (ok : Bool) (v : Int) :
    GValue ok (goInt v) =
      if ok then ((some ⟨⟨24, .v_int (toInt32 v)⟩⟩, none),
                  [._g_value_init 24, .g_value_set_int (toInt32 v)])
      else ((none, some nilPtrErr), [._g_value_init 24]) := by
  cases ok <;> rfl

theorem GValue_string_eq (ok : Bool) (s : GoString) :
    GValue ok (goString s) =
      if ok then ((some ⟨⟨64, .v_string (some (g_strdup (CString s)))⟩⟩, none),
                  [._g_value_init 64, .g_value_set_string (CString s)])
      else ((none, some nilPtrErr), [._g_value_init 64]) := by
  cases ok <;> rfl

/-! ## C1: integers -/

/-- C1, the code at the failing input.  `GValue(3)` succeeds and builds a container of type
`G_TYPE_INT` that holds 3.  `GetType` of that container is the result of
`g_value_get_gtype`, which is 0 (`TYPE_INVALID`) for a container that does not hold
`G_TYPE_GTYPE`, so `GoValue` takes the default branch of its switch: it returns the nil value
and the error "Type conversion not supported", not `(3, nil)`.  The same happens for the
container `GValue` builds for any Go int `v`, whatever the id of `G_TYPE_GTYPE` is. -/
theorem GValue_int_GoValue_fails (k : Nat) (v : Int) :
    GValue true (goInt 3) =
      ((some ⟨⟨24, .v_int 3⟩⟩, none), [._g_value_init 24, .g_value_set_int 3]) ∧
    Value.GetType k ⟨⟨24, .v_int 3⟩⟩ = 0 ∧
    Value.GetType k ⟨⟨24, .v_int 3⟩⟩ ≠ TYPE_INT ∧
    Value.GoValue k ⟨⟨24, .v_int 3⟩⟩ = (.nil, some "Type conversion not supported") ∧
    Value.GoValue k ⟨⟨24, .v_int 3⟩⟩ ≠ (goInt 3, none) ∧
    (∃ g log, GValue true (goInt v) = ((some g, none), log) ∧
      g.GValue = ⟨24, .v_int (toInt32 v)⟩ ∧
      Value.GoValue k g = (.nil, some "Type conversion not supported")) := by
  have hg := GoValue_fundamental k 24 (.v_int 3) (by omega)
  have ht := getType_fundamental k 24 (.v_int 3) (by omega)
  refine ⟨rfl, ht, ?_, hg, ?_, ⟨⟨24, .v_int (toInt32 v)⟩⟩,
    [._g_value_init 24, .g_value_set_int (toInt32 v)], ?_, rfl,
    GoValue_fundamental k 24 _ (by omega)⟩
  · rw [ht]; decide
  · rw [hg]; decide
  · rw [GValue_int_eq]; rfl

/-! ## C2: strings -/

/-- C2, the code at the failing input.  `GValue("hello")` succeeds and builds a container of
type `G_TYPE_STRING` that holds the C string `hello`.  `GetType` of that container is the
result of `g_value_get_gtype`, which is 0 (`TYPE_INVALID`) and not `TYPE_STRING`, so
`GoValue` returns the nil value and the error "Type conversion not supported", not
`("hello", nil)`.  The same happens for the container `GValue` builds for any Go string
`s`. -/
theorem GValue_string_GoValue_fails (k : Nat) (s : GoString) :
    GValue true (goString [104, 101, 108, 108, 111]) =
      ((some ⟨⟨64, .v_string (some [104, 101, 108, 108, 111, 0])⟩⟩, none),
        [._g_value_init 64, .g_value_set_string [104, 101, 108, 108, 111, 0]]) ∧
    Value.GetType k ⟨⟨64, .v_string (some [104, 101, 108, 108, 111, 0])⟩⟩ = 0 ∧
    Value.GetType k ⟨⟨64, .v_string (some [104, 101, 108, 108, 111, 0])⟩⟩ ≠ TYPE_STRING ∧
    Value.GoValue k ⟨⟨64, .v_string (some [104, 101, 108, 108, 111, 0])⟩⟩ =
      (.nil, some "Type conversion not supported") ∧
    Value.GoValue k ⟨⟨64, .v_string (some [104, 101, 108, 108, 111, 0])⟩⟩ ≠
      (goString [104, 101, 108, 108, 111], none) ∧
    (∃ g log, GValue true (goString s) = ((some g, none), log) ∧
      g.GValue = ⟨64, .v_string (some (g_strdup (CString s)))⟩ ∧
      Value.GoValue k g = (.nil, some "Type conversion not supported")) := by
  have hg := GoValue_fundamental k 64 (.v_string (some [104, 101, 108, 108, 111, 0]))
    (by omega)
  have ht := getType_fundamental k 64 (.v_string (some [104, 101, 108, 108, 111, 0]))
    (by omega)
  refine ⟨by decide, ht, ?_, hg, ?_, ⟨⟨64, .v_string (some (g_strdup (CString s)))⟩⟩,
    [._g_value_init 64, .g_value_set_string (CString s)], ?_, rfl,
    GoValue_fundamental k 64 _ (by omega)⟩
  · rw [ht]; decide
  · rw [hg]; decide
  · rw [GValue_string_eq]; rfl

/-! ## C3: unsupported host types -/

/-- C3.  For every host value whose dynamic type is neither `int` nor `string` (the nil
interface included), `GValue` returns a nil `*Value` and the error "Type not implemented",
and makes no native call: no container is allocated or initialised. -/
theorem GValue_unsupported (ok : Bool) (v : HostValue)
    (hint : v.dynType ≠ some (.basic .int)) (hstr : v.dynType ≠ some (.basic .string)) :
    GValue ok v = ((none, some "Type not implemented"), []) := by
  unfold GValue
  split
  · exact absurd rfl hint
  · exact absurd rfl hstr
  · rfl

/-- C3, witness: a `bool`, an `int32`, a value of a named integer type and the nil interface. -/
theorem GValue_unsupported_witness :
    GValue true (.val (.basic .bool) (.bool true)) = ((none, some "Type not implemented"), []) ∧
    GValue true (.val (.basic .int32) (.int 7)) = ((none, some "Type not implemented"), []) ∧
    GValue true (.val (.named "ResponseType" (.basic .int)) (.int 7)) =
      ((none, some "Type not implemented"), []) ∧
    GValue true .nil = ((none, some "Type not implemented"), []) :=
  ⟨GValue_unsupported true _ (by decide) (by decide),
   GValue_unsupported true _ (by decide) (by decide),
   GValue_unsupported true _ (by decide) (by decide),
   GValue_unsupported true _ (by decide) (by decide)⟩

/-! ## C4: dispatch of `GoValue` on the discriminant -/

/-- C4, the code at the failing input.  For a `Value` whose discriminant (the type of the
native container) is `TYPE_INT` or `TYPE_STRING`, whatever it holds, `GoValue` returns the
nil value and the error "Type conversion not supported": the switch of `GoValue` is on
`GetType`, which is `g_value_get_gtype` of the container and is 0 there.  The two value
branches are taken only for a container whose discriminant is `G_TYPE_GTYPE`, which is
neither `TYPE_INT` nor `TYPE_STRING`, when the `GType` it stores is 24 or 64; `GoValue` then
returns the int 0 or the empty string with a nil error. -/
theorem GoValue_ignores_discriminant (k : Nat) (d : GData) :
    Value.GoValue k ⟨⟨toGType TYPE_INT, d⟩⟩ = (.nil, some "Type conversion not supported") ∧
    Value.GoValue k ⟨⟨toGType TYPE_STRING, d⟩⟩ =
      (.nil, some "Type conversion not supported") ∧
    Value.GoValue k ⟨⟨24, .v_int 7⟩⟩ = (.nil, some "Type conversion not supported") ∧
    G_TYPE_GTYPE k ≠ toGType TYPE_INT ∧ G_TYPE_GTYPE k ≠ toGType TYPE_STRING ∧
    Value.GoValue k ⟨⟨G_TYPE_GTYPE k, .v_other 24⟩⟩ = (goInt 0, none) ∧
    Value.GoValue k ⟨⟨G_TYPE_GTYPE k, .v_other 64⟩⟩ = (goString [], none) := by
  have hi : toGType TYPE_INT = 24 := by decide
  have hs : toGType TYPE_STRING = 64 := by decide
  have hk24 : ¬ (G_TYPE_GTYPE k = 24) := by unfold G_TYPE_GTYPE; omega
  have hk64 : ¬ (G_TYPE_GTYPE k = 64) := by unfold G_TYPE_GTYPE; omega
  have h24 : toInt64 ((24 : Nat) : Int) = TYPE_INT := by decide
  have h64 : toInt64 ((64 : Nat) : Int) = TYPE_STRING := by decide
  have hne : TYPE_STRING ≠ TYPE_INT := by decide
  refine ⟨?_, ?_, GoValue_fundamental k 24 _ (by omega), ?_, ?_, ?_, ?_⟩
  · rw [hi]; exact GoValue_fundamental k 24 d (by omega)
  · rw [hs]; exact GoValue_fundamental k 64 d (by omega)
  · rw [hi]; exact hk24
  · rw [hs]; exact hk64
  · simp only [Value.GoValue, getType_gtype, h24, if_true, g_value_get_int, hk24, if_false]
    rfl
  · simp only [Value.GoValue, getType_gtype, h64, hne, if_true, if_false, g_value_get_string,
      hk64]
    rfl

/-! ## C5: registrations that `IdleAdd` rejects -/

theorem kind_func_underlying : ∀ t : RType, t.kind = Kind.Func →
    ∃ i o, t.underlying = RType.func i o
  | .func i o, _ => ⟨i, o, rfl⟩
  | .named _ u, h => by
      simp only [RType.kind] at h
      simpa only [RType.underlying] using kind_func_underlying u h
  | .basic b, h => by cases b <;> simp [RType.kind, Basic.kind] at h
  | .pointer _, h => by simp [RType.kind] at h
  | .iface _, h => by simp [RType.kind] at h
  | .composite k _, h => by cases k <;> simp [RType.kind, CompositeKind.kind] at h

theorem kind_func_ins (f : HostValue) (h : f.kind = Kind.Func) :
    ∃ ins, f.dynType.bind RType.ins = some ins := by
  cases f with
  | nil => simp [HostValue.kind] at h
  | val t p =>
      obtain ⟨i, o, hu⟩ := kind_func_underlying t h
      exact ⟨i, by simp [HostValue.dynType, RType.ins, hu]⟩

/-- C5.  For every value `f` and data list `datas` such that `f` is not a function, or `f`
is a function whose declared parameter count differs from `len(datas)`, `IdleAdd` returns
`(0, err)` with a non-nil error and leaves the package state as it was: the idle registry has
the same entries, and no native call (no idle source) has been made. -/
theorem IdleAdd_rejects (st : State) (f : HostValue) (datas : List HostValue) (id : Nat)
    (h : f.kind ≠ Kind.Func ∨ (f.kind = Kind.Func ∧ f.NumIn ≠ some datas.length)) :
    ∃ e, (e = "f is not a function" ∨ e = "Number of arguments do not match") ∧
      IdleAdd st f datas id = .ok ((0, some e), st) := by
  rcases h with h | ⟨hk, hn⟩
  · exact ⟨_, Or.inl rfl, by simp [IdleAdd, h]⟩
  · obtain ⟨ins, hins⟩ := kind_func_ins f hk
    have hlen : ins.length ≠ datas.length := by
      intro e; apply hn; simp [HostValue.NumIn, hins, e]
    exact ⟨_, Or.inr rfl, by simp [IdleAdd, hk, hins, hlen]⟩

/-- C5, witness: the integer `3` as `f`, and a one-parameter function registered with no
data, on a state that already holds an idle slot. -/
theorem IdleAdd_rejects_witness :
    (∃ e, (e = "f is not a function" ∨ e = "Number of arguments do not match") ∧
      IdleAdd ⟨[], [none], []⟩ (goInt 3) [] 7 = .ok ((0, some e), ⟨[], [none], []⟩)) ∧
    (∃ e, (e = "f is not a function" ∨ e = "Number of arguments do not match") ∧
      IdleAdd ⟨[], [none], []⟩ (.val (.func [.basic .int] []) (.fn (some 1))) [] 7 =
        .ok ((0, some e), ⟨[], [none], []⟩)) :=
  ⟨IdleAdd_rejects ⟨[], [none], []⟩ (goInt 3) [] 7 (Or.inl (by decide)),
   IdleAdd_rejects ⟨[], [none], []⟩ (.val (.func [.basic .int] []) (.fn (some 1))) [] 7
     (Or.inr ⟨by decide, by decide⟩)⟩

/-! ## C6: what `IdleAdd` checks about the argument types -/

/-- C6, the code at the failing input.  With `type Celsius int`, the registration
`IdleAdd(func(c Celsius) {}, 5)` is accepted: it returns the source id with a nil error and
stores the `int` value `5` as the argument of slot 0.  Yet `int` is not assignable to
`Celsius`, so the argument check of the later `reflect.Value.Call` in the trampoline fails. -/
theorem IdleAdd_accepts_unassignable :
    IdleAdd ⟨[], [], []⟩
        (.val (.func [.named "Celsius" (.basic .int)] []) (.fn (some 1))) [goInt 5] 7 =
      .ok ((7, none),
        ⟨[], [some ⟨.val (.func [.named "Celsius" (.basic .int)] []) (.fn (some 1)),
                    [goInt 5], some ⟨0, 7⟩⟩],
         [._g_idle_add 0]⟩) ∧
    RType.AssignableTo (.basic .int) (.named "Celsius" (.basic .int)) = false ∧
    callArgsOk [.named "Celsius" (.basic .int)] [goInt 5] = false := by
  decide

/-! ## C7: signal registration -/

/-- C7, counterexample.  The integer `5`, which is not a function, is registered as a signal
handler: `Connect` returns the handle 0 (it has no error result) and the callback registry
has grown from no slot to one slot, which holds the integer. -/
theorem Connect_registers_non_function :
    HostValue.kind (goInt 5) ≠ Kind.Func ∧
    Object.Connect ⟨[], [], []⟩ (some ⟨1, ⟨4096⟩⟩) [99] (goInt 5) 77 =
      .ok (0, ⟨[some ⟨goInt 5, 77, objectValue (some ⟨1, ⟨4096⟩⟩), .nil⟩], [],
               [._g_signal_connect 4096 [99, 0] 0]⟩) ∧
    Object.ConnectWithData ⟨[], [], []⟩ (some ⟨1, ⟨4096⟩⟩) [99] (goInt 5) (goInt 1) 77 =
      .ok (0, ⟨[some ⟨goInt 5, 77, objectValue (some ⟨1, ⟨4096⟩⟩), goInt 1⟩], [],
               [._g_signal_connect 4096 [99, 0] 0]⟩) := by
  decide

/-- C7, amended.  Signal registration does not validate the handler: for every object `v`
and every value `f`, a function or not, `Connect` and `ConnectWithData` report nothing, make
the native connection with the current registry length as token, append exactly one slot
holding `f` to the callback registry and return its index. -/
theorem Connect_appends_unchecked (st : State) (v : ObjectRef) (s : GoString)
    (f data : HostValue) (cbi : Ptr) :
    Object.Connect st (some v) s f cbi =
      .ok (st.callbackContexts.length,
        { st with
          callbackContexts := st.callbackContexts ++ [some ⟨f, cbi, objectValue (some v), .nil⟩]
          native := st.native ++
            [._g_signal_connect v.obj.GObject (CString s) (toInt32 st.callbackContexts.length)] }) ∧
    Object.ConnectWithData st (some v) s f data cbi =
      .ok (st.callbackContexts.length,
        { st with
          callbackContexts := st.callbackContexts ++ [some ⟨f, cbi, objectValue (some v), data⟩]
          native := st.native ++
            [._g_signal_connect v.obj.GObject (CString s) (toInt32 st.callbackContexts.length)] }) := by
  constructor <;> rfl

/-! ## C8: constructors and a NULL result -/

/-- C8, the code at the failing input.  When `_gtk_message_dialog_new` returns `NULL`,
`MessageDialogNew` (here with a nil `*Window` as parent) returns a non-nil wrapper whose
`GObject` is `NULL`, after calling `g_object_ref_sink(NULL)` and setting a finalizer on the
new object; it has no error result.  `ButtonNew` on a `NULL` result of `gtk_button_new`
returns a nil wrapper and `nilPtrErr`, and allocates nothing. -/
theorem MessageDialogNew_wraps_null (rt : Gtk.Runtime) (flags mType buttons : Int)
    (s : GoString) :
    Gtk.MessageDialogNew rt (.window none) flags mType buttons s 0 =
      .ok (some ⟨⟨⟨⟨⟨⟨⟨some ⟨rt.nextAddr, ⟨0⟩⟩⟩⟩⟩⟩⟩⟩⟩,
        { nextAddr := rt.nextAddr + 1
          finalizers := rt.finalizers ++ [⟨rt.nextAddr, ⟨0⟩⟩]
          native := (rt.native ++ [._gtk_message_dialog_new 0 flags mType buttons (CString s)])
            ++ [.glib (.g_object_ref_sink 0)] }) ∧
    Gtk.ButtonNew rt 0 =
      ((none, some Gtk.nilPtrErr), { rt with native := rt.native ++ [.gtk_button_new] }) := by
  constructor <;> rfl

/-! ## C9: getters and a NULL result -/

theorem widget_native_some (o : ObjectRef) :
    Gtk.Widget.Native (some ⟨⟨some o⟩⟩) = .ok o.obj.GObject := by
  simp only [Gtk.Widget.Native, Gtk.Widget.GObject, GObjectOf]
  split <;> simp_all

theorem bin_native_some (o : ObjectRef) :
    Gtk.Bin.Native (some ⟨⟨⟨⟨some o⟩⟩⟩⟩) = .ok o.obj.GObject := by
  simp only [Gtk.Bin.Native, Gtk.Widget.GObject, GObjectOf]
  split <;> simp_all

theorem button_native_some (o : ObjectRef) :
    Gtk.Button.Native (some ⟨⟨⟨⟨⟨some o⟩⟩⟩⟩⟩) = .ok o.obj.GObject := by
  simp only [Gtk.Button.Native, Gtk.Widget.GObject, GObjectOf]
  split <;> simp_all

/-- C9, the code at the failing input.  For a non-nil widget whose native getter
`gtk_widget_get_parent_window` returns `NULL`, `Widget.GetParentWindow` returns a non-nil
`*gdk.Window` wrapping `NULL` together with a nil error, after calling `g_object_ref(NULL)`
and setting a finalizer.  On a `NULL` result of their native getters, `Widget.GetParent`,
`Bin.GetChild` and `Button.GetEventWindow` return `(nil, nilPtrErr)` and allocate nothing. -/
theorem GetParentWindow_wraps_null (rt : Gtk.Runtime) (o : ObjectRef) :
    Gtk.Widget.GetParentWindow rt (some ⟨⟨some o⟩⟩) 0 =
      .ok ((some ⟨some ⟨rt.nextAddr, ⟨0⟩⟩⟩, none),
        { nextAddr := rt.nextAddr + 1
          finalizers := rt.finalizers ++ [⟨rt.nextAddr, ⟨0⟩⟩]
          native := (rt.native ++ [.gtk_widget_get_parent_window o.obj.GObject])
            ++ [.glib (.g_object_ref 0)] }) ∧
    Gtk.Widget.GetParent rt (some ⟨⟨some o⟩⟩) 0 =
      .ok ((none, some Gtk.nilPtrErr),
        { rt with native := rt.native ++ [.gtk_widget_get_parent o.obj.GObject] }) ∧
    Gtk.Bin.GetChild rt (some ⟨⟨⟨⟨some o⟩⟩⟩⟩) 0 =
      .ok ((none, some Gtk.nilPtrErr),
        { rt with native := rt.native ++ [.gtk_bin_get_child o.obj.GObject] }) ∧
    Gtk.Button.GetEventWindow rt (some ⟨⟨⟨⟨⟨some o⟩⟩⟩⟩⟩) 0 =
      .ok ((none, some Gtk.nilPtrErr),
        { rt with native := rt.native ++ [.gtk_button_get_event_window o.obj.GObject] }) := by
  refine ⟨?_, ?_, ?_, ?_⟩
  · simp only [Gtk.Widget.GetParentWindow, widget_native_some]; rfl
  · simp only [Gtk.Widget.GetParent, widget_native_some]; rfl
  · simp only [Gtk.Bin.GetChild, bin_native_some]; rfl
  · simp only [Gtk.Button.GetEventWindow, button_native_some]; rfl

/-! ## C10: two wraps of one native object -/

theorem GetChild_ok (rt rt1 : Gtk.Runtime) (v : Option Gtk.Bin) (c : Ptr) (w : Gtk.Widget)
    (h : Gtk.Bin.GetChild rt v c = .ok ((some w, none), rt1)) :
    c ≠ 0 ∧ w = ⟨⟨some ⟨rt.nextAddr, ⟨c⟩⟩⟩⟩ ∧ rt1.nextAddr = rt.nextAddr + 1 ∧
      rt1.finalizers = rt.finalizers ++ [⟨rt.nextAddr, ⟨c⟩⟩] := by
  unfold Gtk.Bin.GetChild at h
  cases hn : Gtk.Bin.Native v with
  | error p => rw [hn] at h; simp at h
  | ok n =>
      rw [hn] at h
      by_cases hc : c = 0
      · simp [hc] at h
      · simp only [hc, if_false, Gtk.newObject, Gtk.Runtime.call, Gtk.SetFinalizer, ToGObject,
          Except.ok.injEq, Prod.mk.injEq, Option.some.injEq, and_true] at h
        obtain ⟨hw, hrt⟩ := h
        subst hrt
        exact ⟨hc, hw.symm, rfl, rfl⟩

theorem GetParent_ok (rt rt1 : Gtk.Runtime) (v : Option Gtk.Widget) (c : Ptr) (w : Gtk.Widget)
    (h : Gtk.Widget.GetParent rt v c = .ok ((some w, none), rt1)) :
    c ≠ 0 ∧ w = ⟨⟨some ⟨rt.nextAddr, ⟨c⟩⟩⟩⟩ ∧ rt1.nextAddr = rt.nextAddr + 1 ∧
      rt1.finalizers = rt.finalizers ++ [⟨rt.nextAddr, ⟨c⟩⟩] := by
  unfold Gtk.Widget.GetParent at h
  cases hn : Gtk.Widget.Native v with
  | error p => rw [hn] at h; simp at h
  | ok n =>
      rw [hn] at h
      by_cases hc : c = 0
      · simp [hc] at h
      · simp only [hc, if_false, Gtk.newObject, Gtk.Runtime.call, Gtk.SetFinalizer, ToGObject,
          Except.ok.injEq, Prod.mk.injEq, Option.some.injEq, and_true] at h
        obtain ⟨hw, hrt⟩ := h
        subst hrt
        exact ⟨hc, hw.symm, rfl, rfl⟩

/-- C10, counterexample.  Two calls of `Bin.GetChild` on the same bin, the native getter
returning the same child `8192` both times, succeed with two wrappers whose `*glib.Object`
are different Go objects (addresses 1 and 2); both objects are registered for finalisation,
so two host wrappers of the one native identity are live. -/
theorem GetChild_twice_not_cached :
    Gtk.Bin.GetChild ⟨1, [], []⟩ (some ⟨⟨⟨⟨some ⟨0, ⟨4096⟩⟩⟩⟩⟩⟩) 8192 =
      .ok ((some ⟨⟨some ⟨1, ⟨8192⟩⟩⟩⟩, none),
        ⟨2, [⟨1, ⟨8192⟩⟩], [.gtk_bin_get_child 4096, .glib (.g_object_ref_sink 8192)]⟩) ∧
    Gtk.Bin.GetChild
        ⟨2, [⟨1, ⟨8192⟩⟩], [.gtk_bin_get_child 4096, .glib (.g_object_ref_sink 8192)]⟩
        (some ⟨⟨⟨⟨some ⟨0, ⟨4096⟩⟩⟩⟩⟩⟩) 8192 =
      .ok ((some ⟨⟨some ⟨2, ⟨8192⟩⟩⟩⟩, none),
        ⟨3, [⟨1, ⟨8192⟩⟩, ⟨2, ⟨8192⟩⟩],
         [.gtk_bin_get_child 4096, .glib (.g_object_ref_sink 8192),
          .gtk_bin_get_child 4096, .glib (.g_object_ref_sink 8192)]⟩) ∧
    Gtk.Widget.Object ⟨⟨some ⟨1, ⟨8192⟩⟩⟩⟩ ≠ Gtk.Widget.Object ⟨⟨some ⟨2, ⟨8192⟩⟩⟩⟩ := by
  decide

/-- C10, amended.  There is no wrapper cache: whenever two successive calls of
`Bin.GetChild`, or of `Widget.GetParent`, return the same native object `c`, the two wrappers
hold two distinct freshly allocated `*glib.Object` (different addresses), each with `c` as
its `GObject`, and each of them has its own finalizer registered. -/
theorem wrap_twice_distinct :
    (∀ (rt rt1 rt2 : Gtk.Runtime) (v : Option Gtk.Bin) (c : Ptr) (w1 w2 : Gtk.Widget),
      Gtk.Bin.GetChild rt v c = .ok ((some w1, none), rt1) →
      Gtk.Bin.GetChild rt1 v c = .ok ((some w2, none), rt2) →
      ∃ o1 o2, w1.Object = some o1 ∧ w2.Object = some o2 ∧ o1.addr ≠ o2.addr ∧
        o1.obj.GObject = c ∧ o2.obj.GObject = c ∧
        rt2.finalizers = rt.finalizers ++ [o1, o2]) ∧
    (∀ (rt rt1 rt2 : Gtk.Runtime) (v : Option Gtk.Widget) (c : Ptr) (w1 w2 : Gtk.Widget),
      Gtk.Widget.GetParent rt v c = .ok ((some w1, none), rt1) →
      Gtk.Widget.GetParent rt1 v c = .ok ((some w2, none), rt2) →
      ∃ o1 o2, w1.Object = some o1 ∧ w2.Object = some o2 ∧ o1.addr ≠ o2.addr ∧
        o1.obj.GObject = c ∧ o2.obj.GObject = c ∧
        rt2.finalizers = rt.finalizers ++ [o1, o2]) := by
  constructor
  · intro rt rt1 rt2 v c w1 w2 h1 h2
    obtain ⟨_, hw1, ha1, hf1⟩ := GetChild_ok rt rt1 v c w1 h1
    obtain ⟨_, hw2, _, hf2⟩ := GetChild_ok rt1 rt2 v c w2 h2
    refine ⟨⟨rt.nextAddr, ⟨c⟩⟩, ⟨rt1.nextAddr, ⟨c⟩⟩, by rw [hw1]; rfl, by rw [hw2]; rfl, ?_,
      rfl, rfl, ?_⟩
    · simp only [ha1]; omega
    · rw [hf2, hf1]; simp
  · intro rt rt1 rt2 v c w1 w2 h1 h2
    obtain ⟨_, hw1, ha1, hf1⟩ := GetParent_ok rt rt1 v c w1 h1
    obtain ⟨_, hw2, _, hf2⟩ := GetParent_ok rt1 rt2 v c w2 h2
    refine ⟨⟨rt.nextAddr, ⟨c⟩⟩, ⟨rt1.nextAddr, ⟨c⟩⟩, by rw [hw1]; rfl, by rw [hw2]; rfl, ?_,
      rfl, rfl, ?_⟩
    · simp only [ha1]; omega
    · rw [hf2, hf1]; simp

/-- C10, witness: two calls of `Bin.GetChild` and two calls of `Widget.GetParent`, the
native getter returning the object `8192` each time. -/
theorem wrap_twice_distinct_witness :
    (∃ o1 o2, Gtk.Widget.Object ⟨⟨some ⟨1, ⟨8192⟩⟩⟩⟩ = some o1 ∧
        Gtk.Widget.Object ⟨⟨some ⟨2, ⟨8192⟩⟩⟩⟩ = some o2 ∧ o1.addr ≠ o2.addr ∧
        o1.obj.GObject = 8192 ∧ o2.obj.GObject = 8192 ∧
        ([⟨1, ⟨8192⟩⟩, ⟨2, ⟨8192⟩⟩] : List ObjectRef) = [] ++ [o1, o2]) ∧
    (∃ o1 o2, Gtk.Widget.Object ⟨⟨some ⟨1, ⟨8192⟩⟩⟩⟩ = some o1 ∧
        Gtk.Widget.Object ⟨⟨some ⟨2, ⟨8192⟩⟩⟩⟩ = some o2 ∧ o1.addr ≠ o2.addr ∧
        o1.obj.GObject = 8192 ∧ o2.obj.GObject = 8192 ∧
        ([⟨1, ⟨8192⟩⟩, ⟨2, ⟨8192⟩⟩] : List ObjectRef) = [] ++ [o1, o2]) :=
  ⟨wrap_twice_distinct.1 ⟨1, [], []⟩
      ⟨2, [⟨1, ⟨8192⟩⟩], [.gtk_bin_get_child 4096, .glib (.g_object_ref_sink 8192)]⟩
      ⟨3, [⟨1, ⟨8192⟩⟩, ⟨2, ⟨8192⟩⟩],
        [.gtk_bin_get_child 4096, .glib (.g_object_ref_sink 8192),
         .gtk_bin_get_child 4096, .glib (.g_object_ref_sink 8192)]⟩
      (some ⟨⟨⟨⟨some ⟨0, ⟨4096⟩⟩⟩⟩⟩⟩) 8192 ⟨⟨some ⟨1, ⟨8192⟩⟩⟩⟩ ⟨⟨some ⟨2, ⟨8192⟩⟩⟩⟩
      (by decide) (by decide),
   wrap_twice_distinct.2 ⟨1, [], []⟩
      ⟨2, [⟨1, ⟨8192⟩⟩], [.gtk_widget_get_parent 4096, .glib (.g_object_ref_sink 8192)]⟩
      ⟨3, [⟨1, ⟨8192⟩⟩, ⟨2, ⟨8192⟩⟩],
        [.gtk_widget_get_parent 4096, .glib (.g_object_ref_sink 8192),
         .gtk_widget_get_parent 4096, .glib (.g_object_ref_sink 8192)]⟩
      (some ⟨⟨some ⟨0, ⟨4096⟩⟩⟩⟩) 8192 ⟨⟨some ⟨1, ⟨8192⟩⟩⟩⟩ ⟨⟨some ⟨2, ⟨8192⟩⟩⟩⟩
      (by decide) (by decide)⟩

/-! ## C11: reference balance of a wrapper -/

theorem glibCalls_append (a b : List Gtk.NativeCall) :
    Gtk.glibCalls (a ++ b) = Gtk.glibCalls a ++ Gtk.glibCalls b := by
  induction a with
  | nil => rfl
  | cons x t ih => cases x <;> simp [Gtk.glibCalls, ih]

/-- Reference balance at three sibling sites.  A successful wrapper creation by the
constructor `ButtonNew` or the getter `Bin.GetChild`, which use `RefSink`, or by the getter
`Button.GetEventWindow`, which uses `Ref`, on the native object `c` allocates one `Object`
holding `c`, makes exactly one reference-counting call, which acquires a reference on `c`,
and registers exactly one finalizer, on that same `Object`, whose run is a single
`g_object_unref(c)`.  In the model of a native object as reference count and floating flag,
the acquisition followed by the finalizer returns a non-floating object to the count it had,
and takes a fresh floating object of count 1 to a sunk object of count 1 and then to
count 0. -/
theorem wrap_reference_balance (rt : Gtk.Runtime) (o : ObjectRef) (c : Ptr) (hc : c ≠ 0) :
    (∃ obj, (Gtk.ButtonNew rt c).1 = (some ⟨⟨⟨⟨⟨some obj⟩⟩⟩⟩⟩, none) ∧ obj.obj.GObject = c ∧
      Gtk.glibCalls (Gtk.ButtonNew rt c).2.native =
        Gtk.glibCalls rt.native ++ [.g_object_ref_sink c] ∧
      (Gtk.ButtonNew rt c).2.finalizers = rt.finalizers ++ [obj] ∧
      Gtk.runFinalizer obj = .g_object_unref c ∧
      NativeObject.run c ⟨1, true⟩ [.g_object_ref_sink c] = ⟨1, false⟩ ∧
      NativeObject.run c ⟨1, true⟩ [.g_object_ref_sink c, Gtk.runFinalizer obj] = ⟨0, false⟩) ∧
    (∃ obj rt1, Gtk.Bin.GetChild rt (some ⟨⟨⟨⟨some o⟩⟩⟩⟩) c = .ok ((some ⟨⟨some obj⟩⟩, none), rt1) ∧
      obj.obj.GObject = c ∧
      Gtk.glibCalls rt1.native = Gtk.glibCalls rt.native ++ [.g_object_ref_sink c] ∧
      rt1.finalizers = rt.finalizers ++ [obj] ∧
      Gtk.runFinalizer obj = .g_object_unref c ∧
      ∀ k, NativeObject.run c ⟨k, false⟩ [.g_object_ref_sink c, Gtk.runFinalizer obj] =
        ⟨k, false⟩) ∧
    (∃ obj rt1, Gtk.Button.GetEventWindow rt (some ⟨⟨⟨⟨⟨some o⟩⟩⟩⟩⟩) c =
        .ok ((some ⟨some obj⟩, none), rt1) ∧
      obj.obj.GObject = c ∧
      Gtk.glibCalls rt1.native = Gtk.glibCalls rt.native ++ [.g_object_ref c] ∧
      rt1.finalizers = rt.finalizers ++ [obj] ∧
      Gtk.runFinalizer obj = .g_object_unref c ∧
      ∀ k, NativeObject.run c ⟨k, false⟩ [.g_object_ref c, Gtk.runFinalizer obj] =
        ⟨k, false⟩) := by
  have hrun : ∀ k, NativeObject.run c ⟨k, false⟩ [.g_object_ref_sink c, .g_object_unref c] =
      ⟨k, false⟩ := by
    intro k; simp [NativeObject.run, NativeObject.apply]
  have hrun2 : ∀ k, NativeObject.run c ⟨k, false⟩ [.g_object_ref c, .g_object_unref c] =
      ⟨k, false⟩ := by
    intro k; simp [NativeObject.run, NativeObject.apply]
  refine ⟨⟨⟨rt.nextAddr, ⟨c⟩⟩, ?_, rfl, ?_, ?_, rfl, ?_, ?_⟩,
    ⟨⟨rt.nextAddr, ⟨c⟩⟩,
      ⟨rt.nextAddr + 1, rt.finalizers ++ [⟨rt.nextAddr, ⟨c⟩⟩],
        (rt.native ++ [.gtk_bin_get_child o.obj.GObject]) ++ [.glib (.g_object_ref_sink c)]⟩,
      ?_, rfl, ?_, rfl, rfl, hrun⟩,
    ⟨⟨rt.nextAddr, ⟨c⟩⟩,
      ⟨rt.nextAddr + 1, rt.finalizers ++ [⟨rt.nextAddr, ⟨c⟩⟩],
        (rt.native ++ [.gtk_button_get_event_window o.obj.GObject]) ++ [.glib (.g_object_ref c)]⟩,
      ?_, rfl, ?_, rfl, rfl, hrun2⟩⟩
  · simp [Gtk.ButtonNew, hc, Gtk.newObject, ToGObject, Gtk.Runtime.call]
  · simp [Gtk.ButtonNew, hc, Gtk.newObject, ToGObject, Gtk.Runtime.call, Gtk.SetFinalizer,
      glibCalls_append, Gtk.glibCalls, Object.RefSink]
  · simp [Gtk.ButtonNew, hc, Gtk.newObject, ToGObject, Gtk.Runtime.call, Gtk.SetFinalizer]
  · simp [NativeObject.run, NativeObject.apply]
  · simp [NativeObject.run, NativeObject.apply, Gtk.runFinalizer, Object.Unref]
  · simp only [Gtk.Bin.GetChild, bin_native_some, hc, if_false, Gtk.newObject, ToGObject]
    rfl
  · simp [glibCalls_append, Gtk.glibCalls]
  · simp only [Gtk.Button.GetEventWindow, button_native_some, hc, if_false, Gtk.newObject,
      ToGObject]
    rfl
  · simp [glibCalls_append, Gtk.glibCalls]

theorem notebook_native_some (o : ObjectRef) :
    Gtk.Notebook.Native (some ⟨⟨⟨⟨some o⟩⟩⟩⟩) = .ok o.obj.GObject := by
  simp only [Gtk.Notebook.Native, Gtk.Widget.GObject, GObjectOf]
  split <;> simp_all

/-- C11, the code at the failing input.  When `gtk_notebook_get_action_widget` returns the
non-NULL widget `c + 1`, `Notebook.GetActionWidget` allocates the `Object`, acquires the
reference for Go (one `g_object_ref_sink` on the native object) and then calls
`runtime.SetFinalizer` on the wrapper, a `*Widget`, with the finalizer
`(*glib.Object).Unref`.  A `*Widget` is not assignable to the parameter `*glib.Object` of the
finalizer, so the runtime aborts the program: the wrapper is not returned and no finalizer is
registered, and nothing is left to release the reference that was acquired.  The sibling
getter `Bin.GetChild` on the same result sets the finalizer on the `Object` and returns the
wrapper. -/
theorem GetActionWidget_sets_no_finalizer (rt : Gtk.Runtime) (o : ObjectRef) (packType : Int)
    (c : Ptr) :
    Gtk.widgetPtrType.AssignableTo objectPtrType = false ∧
    objectPtrType.AssignableTo objectPtrType = true ∧
    (∃ rt1, Gtk.Notebook.GetActionWidget rt (some ⟨⟨⟨⟨some o⟩⟩⟩⟩) packType (c + 1) =
        (.error "runtime.SetFinalizer: cannot pass *gtk.Widget to finalizer func(*glib.Object)",
          rt1) ∧
      Gtk.glibCalls rt1.native = Gtk.glibCalls rt.native ++ [.g_object_ref_sink (c + 1)] ∧
      rt1.finalizers = rt.finalizers) ∧
    (∃ obj rt2, Gtk.Bin.GetChild rt (some ⟨⟨⟨⟨some o⟩⟩⟩⟩) (c + 1) =
        .ok ((some ⟨⟨some obj⟩⟩, none), rt2) ∧
      Gtk.glibCalls rt2.native = Gtk.glibCalls rt.native ++ [.g_object_ref_sink (c + 1)] ∧
      rt2.finalizers = rt.finalizers ++ [obj]) := by
  have hc : c + 1 ≠ 0 := Nat.succ_ne_zero c
  have hw : Gtk.widgetPtrType.AssignableTo objectPtrType = false := by decide
  refine ⟨hw, by decide,
    ⟨⟨rt.nextAddr + 1, rt.finalizers,
        (rt.native ++ [.gtk_notebook_get_action_widget o.obj.GObject (toUint32 packType)]) ++
          [.glib (.g_object_ref_sink (c + 1))]⟩, ?_, ?_, rfl⟩,
    ⟨⟨rt.nextAddr, ⟨c + 1⟩⟩,
      ⟨rt.nextAddr + 1, rt.finalizers ++ [⟨rt.nextAddr, ⟨c + 1⟩⟩],
        (rt.native ++ [.gtk_bin_get_child o.obj.GObject]) ++
          [.glib (.g_object_ref_sink (c + 1))]⟩, ?_, ?_, rfl⟩⟩
  · simp only [Gtk.Notebook.GetActionWidget, notebook_native_some, hc, if_false,
      Gtk.newObject, ToGObject, Gtk.SetFinalizerOf, hw]
    rfl
  · simp [glibCalls_append, Gtk.glibCalls]
  · simp only [Gtk.Bin.GetChild, bin_native_some, hc, if_false, Gtk.newObject, ToGObject]
    rfl
  · simp [glibCalls_append, Gtk.glibCalls]

/-! ## C12: the slot of a signal registration -/

theorem getElem?_append_last {α : Type} (l : List α) (a : α) :
    (l ++ [a])[l.length]? = some a := by
  simp

theorem getElem?_append_before {α : Type} (l : List α) (a : α) (i : Nat) (h : i < l.length) :
    (l ++ [a])[i]? = l[i]? := by
  rw [List.getElem?_append_left h]

/-- C12.  In sequential execution, for a callback registry of length `n`, `Connect` and
`ConnectWithData` return the handle `n`; on return the registry has length `n + 1`, slot `n`
holds a context carrying the function `f`, the target object `v` (the `*Object` pointer of
address `v.addr`, as `reflect.ValueOf(v)`) and the bound data (the zero Value for `Connect`),
the slots `0..n-1` are unchanged, and the one native call made is the signal
connection on the object of `v` with the token `C.int(n)`, which is the slot index `n`
itself for a registry of fewer than `2^31` slots. -/
theorem Connect_slot (st : State) (v : ObjectRef) (s : GoString) (f data : HostValue)
    (cbi : Ptr) :
    (∃ st1, Object.Connect st (some v) s f cbi = .ok (st.callbackContexts.length, st1) ∧
      st1.callbackContexts.length = st.callbackContexts.length + 1 ∧
      st1.callbackContexts[st.callbackContexts.length]? =
        some (some ⟨f, cbi, .val objectPtrType (.ptr v.addr), .nil⟩) ∧
      (∀ (i : Nat), i < st.callbackContexts.length →
        st1.callbackContexts[i]? = st.callbackContexts[i]?) ∧
      st1.idleFnContexts = st.idleFnContexts ∧
      st1.native = st.native ++
        [._g_signal_connect v.obj.GObject (CString s) (toInt32 st.callbackContexts.length)]) ∧
    (∃ st1, Object.ConnectWithData st (some v) s f data cbi =
        .ok (st.callbackContexts.length, st1) ∧
      st1.callbackContexts.length = st.callbackContexts.length + 1 ∧
      st1.callbackContexts[st.callbackContexts.length]? =
        some (some ⟨f, cbi, .val objectPtrType (.ptr v.addr), data⟩) ∧
      (∀ (i : Nat), i < st.callbackContexts.length →
        st1.callbackContexts[i]? = st.callbackContexts[i]?) ∧
      st1.idleFnContexts = st.idleFnContexts ∧
      st1.native = st.native ++
        [._g_signal_connect v.obj.GObject (CString s) (toInt32 st.callbackContexts.length)]) ∧
    (st.callbackContexts.length < 2147483648 →
      toInt32 st.callbackContexts.length = st.callbackContexts.length) := by
  refine ⟨⟨_, rfl, ?_, ?_, ?_, rfl, rfl⟩, ⟨_, rfl, ?_, ?_, ?_, rfl, rfl⟩, ?_⟩
  · simp
  · exact getElem?_append_last _ _
  · intro i hi; exact getElem?_append_before _ _ i hi
  · simp
  · exact getElem?_append_last _ _
  · intro i hi; exact getElem?_append_before _ _ i hi
  · intro h; exact toInt32_of_range _ (by omega)

/-- C12, witness: a registration on a registry that already holds one (nulled) slot. -/
theorem Connect_slot_witness :
    (∃ st1, Object.Connect ⟨[none], [], []⟩ (some ⟨1, ⟨4096⟩⟩) [99]
        (.val (.func [] []) (.fn (some 1))) 77 = .ok (1, st1) ∧
      st1.callbackContexts.length = 2 ∧
      st1.callbackContexts[1]? =
        some (some ⟨.val (.func [] []) (.fn (some 1)), 77, .val objectPtrType (.ptr 1), .nil⟩) ∧
      (∀ (i : Nat), i < 1 → st1.callbackContexts[i]? = ([none] : List (Option CallbackContext))[i]?) ∧
      st1.idleFnContexts = [] ∧
      st1.native = [] ++ [._g_signal_connect 4096 (CString [99]) (toInt32 (1 : Nat))]) ∧
    toInt32 (1 : Nat) = (1 : Nat) :=
  ⟨(Connect_slot ⟨[none], [], []⟩ ⟨1, ⟨4096⟩⟩ [99] (.val (.func [] []) (.fn (some 1)))
      .nil 77).1,
   (Connect_slot ⟨[none], [], []⟩ ⟨1, ⟨4096⟩⟩ [99] (.val (.func [] []) (.fn (some 1)))
      .nil 77).2.2 (by decide)⟩

/-! ## C13: the slot of an idle registration and its trampoline -/

theorem IdleAdd_loop_ok (ins : List RType) :
    ∀ (datas : List HostValue) (i : Nat) (acc vals : List HostValue),
      IdleAdd.loop ins i acc datas = .ok (none, vals) → vals = acc ++ datas
  | [], i, acc, vals, h => by
      simp only [IdleAdd.loop, Except.ok.injEq, Prod.mk.injEq, true_and] at h
      simp [h]
  | d :: ds, i, acc, vals, h => by
      simp only [IdleAdd.loop] at h
      split at h
      · simp at h
      · split at h
        · simp at h
        · have := IdleAdd_loop_ok ins ds (i + 1) (acc ++ [d]) vals h
          simp [this]

/-- The three outcomes of `IdleAdd`: a panic, a rejection that leaves the state as it was, or
an acceptance that appends one slot holding `f` and `datas` and makes one native call. -/
theorem IdleAdd_cases (st : State) (f : HostValue) (datas : List HostValue) (id : Nat) :
    (∃ p, IdleAdd st f datas id = .error p) ∨
    (∃ e, IdleAdd st f datas id = .ok ((0, some e), st)) ∨
    IdleAdd st f datas id = .ok ((id, none),
      { st with
        idleFnContexts := st.idleFnContexts ++
          [some ⟨f, datas, some ⟨toInt32 (toInt32 ((st.idleFnContexts.length + 1 : Nat) : Int) - 1), id⟩⟩]
        native := st.native ++
          [._g_idle_add (toInt32 (toInt32 ((st.idleFnContexts.length + 1 : Nat) : Int) - 1))] }) := by
  unfold IdleAdd
  split
  · exact Or.inr (Or.inl ⟨_, rfl⟩)
  · split
    · exact Or.inl ⟨_, rfl⟩
    · split
      · exact Or.inr (Or.inl ⟨_, rfl⟩)
      · split
        · exact Or.inl ⟨_, rfl⟩
        · exact Or.inr (Or.inl ⟨_, rfl⟩)
        · rename_i vals hloop
          have hv := IdleAdd_loop_ok _ _ _ _ _ hloop
          simp only [List.nil_append] at hv
          subst hv
          refine Or.inr (Or.inr ?_)
          simp [_g_idle_add]

/-- C13, the code at the failing input.  With `type Celsius int`, the registration
`IdleAdd(func(c Celsius) {}, 5)` on the empty idle registry is accepted: it returns the
source id and a nil error, slot 0 holds the function and the value `5`, and the token given
to the native idle source is 0.  The trampoline fired for slot 0 then panics in the argument
check of `reflect.Value.Call` and makes no invocation: the function is not invoked with the
stored value, whatever its body is. -/
theorem IdleAdd_slot_not_invoked (env : FuncEnv) :
    IdleAdd ⟨[], [], []⟩
        (.val (.func [.named "Celsius" (.basic .int)] []) (.fn (some 1))) [goInt 5] 7 =
      .ok ((7, none),
        ⟨[], [some ⟨.val (.func [.named "Celsius" (.basic .int)] []) (.fn (some 1)),
                    [goInt 5], some ⟨0, 7⟩⟩],
         [._g_idle_add 0]⟩) ∧
    _go_glib_idle_fn env
        ⟨[], [some ⟨.val (.func [.named "Celsius" (.basic .int)] []) (.fn (some 1)),
                    [goInt 5], some ⟨0, 7⟩⟩],
         [._g_idle_add 0]⟩ 0 =
      ([], .error "reflect: Call with arguments that do not match the parameters") := by
  constructor
  · decide
  · rfl

/-! ## C14: the native result of the idle trampoline -/

/-- C14.  When the slot of the token holds a context and the call of its function with the
stored arguments returns the values `rv`, the idle trampoline completes and writes a native
result `ret`.  If `rv` is exactly one value of kind Bool holding the boolean `b`, `ret` is 1
for `b = true` and 0 for `b = false`.  The result is 1 if and only if `rv` is exactly one
value, of kind Bool, holding true; in every other case (the value false, no value, a value
of another kind, more than one value) it is 0.  These are the values of `gbool`:
`gbool(true) = 1` and `gbool(false) = 0`. -/
theorem idle_fn_result (env : FuncEnv) (st : State) (func_n : Int) (ctx : idleFnContext)
    (calls : List HostCall) (rv : List HostValue)
    (hn : 0 ≤ func_n) (hslot : st.idleFnContexts[func_n.toNat]? = some (some ctx))
    (hcall : Call env ctx.f ctx.args = (calls, .ok rv)) :
    ∃ ret, _go_glib_idle_fn env st func_n = (calls, .ok ret) ∧
      (∀ (t : RType) (b : Bool), rv = [.val t (.bool b)] → t.kind = Kind.Bool →
        ret = if b then 1 else 0) ∧
      (ret = 1 ↔ ∃ t, rv = [.val t (.bool true)] ∧ t.kind = Kind.Bool) ∧
      (ret ≠ 1 → ret = 0) ∧ gbool true = 1 ∧ gbool false = 0 := by
  have hlt : ¬ func_n < 0 := by omega
  simp only [_go_glib_idle_fn, hlt, if_false, hslot, hcall]
  match rv with
  | [] => exact ⟨0, rfl, by simp, by simp, by simp, rfl, rfl⟩
  | [.nil] =>
      exact ⟨0, by simp [HostValue.kind, gbool], by simp, by simp, by simp, rfl, rfl⟩
  | [.val t p] =>
      by_cases hk : t.kind = Kind.Bool
      · cases p with
        | bool b =>
            cases b
            · refine ⟨0, by simp [HostValue.kind, hk, HostValue.Bool, gbool], ?_, by simp,
                by simp, rfl, rfl⟩
              intro t1 b1 h1 _
              simp only [List.cons.injEq, HostValue.val.injEq, Payload.bool.injEq,
                and_true] at h1
              rw [← h1.2]; rfl
            · refine ⟨1, by simp [HostValue.kind, hk, HostValue.Bool, gbool], ?_,
                by simp [hk], by simp, rfl, rfl⟩
              intro t1 b1 h1 _
              simp only [List.cons.injEq, HostValue.val.injEq, Payload.bool.injEq,
                and_true] at h1
              rw [← h1.2]; rfl
        | _ =>
            exact ⟨0, by simp [HostValue.kind, hk, HostValue.Bool, gbool], by simp, by simp,
              by simp, rfl, rfl⟩
      · refine ⟨0, by simp [HostValue.kind, hk, gbool], ?_, ?_, by simp, rfl, rfl⟩
        · intro t1 b1 h1 hk1
          simp only [List.cons.injEq, HostValue.val.injEq, and_true] at h1
          rw [h1.1] at hk
          exact absurd hk1 hk
        · constructor
          · intro h; simp at h
          · rintro ⟨t1, h1, hk1⟩
            simp only [List.cons.injEq, HostValue.val.injEq, and_true] at h1
            rw [h1.1] at hk
            exact absurd hk1 hk
  | _ :: _ :: _ => exact ⟨0, rfl, by simp, by simp, by simp, rfl, rfl⟩

/-- C14, witness: a function without parameters registered in slot 0.  When it returns the
single value `true` the trampoline writes 1, and when it returns the single value `false`
the trampoline writes 0. -/
theorem idle_fn_result_witness :
    _go_glib_idle_fn (fun _ _ => .ok (fun _ => .bool true))
        ⟨[], [some ⟨.val (.func [] [.basic .bool]) (.fn (some 1)), [], some ⟨0, 7⟩⟩], []⟩ 0 =
      ([⟨.val (.func [] [.basic .bool]) (.fn (some 1)), []⟩], .ok 1) ∧
    _go_glib_idle_fn (fun _ _ => .ok (fun _ => .bool false))
        ⟨[], [some ⟨.val (.func [] [.basic .bool]) (.fn (some 1)), [], some ⟨0, 7⟩⟩], []⟩ 0 =
      ([⟨.val (.func [] [.basic .bool]) (.fn (some 1)), []⟩], .ok 0) := by
  obtain ⟨r1, h1, hb1, _⟩ := idle_fn_result (fun _ _ => .ok (fun _ => .bool true))
    ⟨[], [some ⟨.val (.func [] [.basic .bool]) (.fn (some 1)), [], some ⟨0, 7⟩⟩], []⟩ 0
    ⟨.val (.func [] [.basic .bool]) (.fn (some 1)), [], some ⟨0, 7⟩⟩
    [⟨.val (.func [] [.basic .bool]) (.fn (some 1)), []⟩]
    [.val (.basic .bool) (.bool true)] (by decide) (by decide) rfl
  obtain ⟨r0, h0, hb0, _⟩ := idle_fn_result (fun _ _ => .ok (fun _ => .bool false))
    ⟨[], [some ⟨.val (.func [] [.basic .bool]) (.fn (some 1)), [], some ⟨0, 7⟩⟩], []⟩ 0
    ⟨.val (.func [] [.basic .bool]) (.fn (some 1)), [], some ⟨0, 7⟩⟩
    [⟨.val (.func [] [.basic .bool]) (.fn (some 1)), []⟩]
    [.val (.basic .bool) (.bool false)] (by decide) (by decide) rfl
  have e1 : r1 = 1 := hb1 (.basic .bool) true rfl rfl
  have e0 : r0 = 0 := hb0 (.basic .bool) false rfl rfl
  rw [e1] at h1
  rw [e0] at h0
  exact ⟨h1, h0⟩

/-! ## C15: removal of an idle context -/

/-- C15.  For every idle registry and every index `n` with `0 ≤ n < length`,
`_go_nil_unused_idle_ctx(n)` returns normally, sets slot `n` to nil and leaves the length of
the registry, every other slot, the callback registry and the native log unchanged. -/
theorem nil_unused_in_place (st : State) (n : Int)
    (h0 : 0 ≤ n) (hlt : n < (st.idleFnContexts.length : Int)) :
    ∃ st1, _go_nil_unused_idle_ctx st n = .ok st1 ∧
      st1.idleFnContexts.length = st.idleFnContexts.length ∧
      st1.idleFnContexts[n.toNat]? = some none ∧
      (∀ (i : Nat), i ≠ n.toNat → st1.idleFnContexts[i]? = st.idleFnContexts[i]?) ∧
      st1.callbackContexts = st.callbackContexts ∧ st1.native = st.native := by
  have h1 : ¬ n < 0 := by omega
  have h2 : n.toNat < st.idleFnContexts.length := by omega
  refine ⟨{ st with idleFnContexts := st.idleFnContexts.set n.toNat none }, ?_, ?_, ?_, ?_,
    rfl, rfl⟩
  · simp [_go_nil_unused_idle_ctx, h1, h2]
  · simp
  · simp [List.getElem?_set, h2]
  · intro i hi
    simp [List.getElem?_set, Ne.symm hi]

/-- C15, witness: slot 1 of a registry of three slots. -/
theorem nil_unused_in_place_witness :
    ∃ st1, _go_nil_unused_idle_ctx
        ⟨[], [some ⟨goInt 1, [], none⟩, some ⟨goInt 2, [], none⟩, some ⟨goInt 3, [], none⟩], []⟩ 1 =
        .ok st1 ∧
      st1.idleFnContexts.length = 3 ∧
      st1.idleFnContexts[(1 : Int).toNat]? = some none ∧
      (∀ (i : Nat), i ≠ (1 : Int).toNat → st1.idleFnContexts[i]? =
        ([some ⟨goInt 1, [], none⟩, some ⟨goInt 2, [], none⟩, some ⟨goInt 3, [], none⟩] :
          List (Option idleFnContext))[i]?) ∧
      st1.callbackContexts = [] ∧ st1.native = [] :=
  nil_unused_in_place
    ⟨[], [some ⟨goInt 1, [], none⟩, some ⟨goInt 2, [], none⟩, some ⟨goInt 3, [], none⟩], []⟩ 1
    (by decide) (by decide)

/-! ## C16: the invariant of the idle registry -/

/-- What one operation does to the registry and to the list of accepted registrations:
nothing, or one slot nulled in place, or one slot appended for one accepted registration. -/
theorem IdleRun_step_cases (env : FuncEnv) (r : IdleRun) (op : IdleOp) :
    ((IdleRun.step env r op).st.idleFnContexts = r.st.idleFnContexts ∧
      (IdleRun.step env r op).registered = r.registered) ∨
    (∃ n, n < r.st.idleFnContexts.length ∧
      (IdleRun.step env r op).st.idleFnContexts = r.st.idleFnContexts.set n none ∧
      (IdleRun.step env r op).registered = r.registered) ∨
    (∃ f datas idl,
      (IdleRun.step env r op).st.idleFnContexts =
        r.st.idleFnContexts ++ [some ⟨f, datas, idl⟩] ∧
      (IdleRun.step env r op).registered = r.registered ++ [(f, datas)]) := by
  unfold IdleRun.step
  split
  · exact Or.inl ⟨rfl, rfl⟩
  · cases op with
    | add f datas id =>
        dsimp only
        rcases IdleAdd_cases r.st f datas id with ⟨p, h⟩ | ⟨e, h⟩ | h
        · rw [h]; exact Or.inl ⟨rfl, rfl⟩
        · rw [h]; exact Or.inl ⟨rfl, rfl⟩
        · rw [h]; exact Or.inr (Or.inr ⟨f, datas, _, rfl, rfl⟩)
    | fire func_n =>
        dsimp only
        cases (_go_glib_idle_fn env r.st func_n).2 <;> exact Or.inl ⟨rfl, rfl⟩
    | unused n =>
        dsimp only
        by_cases h0 : n < 0
        · refine Or.inl ?_
          simp [_go_nil_unused_idle_ctx, h0]
        · by_cases hlt : n.toNat < r.st.idleFnContexts.length
          · refine Or.inr (Or.inl ⟨n.toNat, hlt, ?_⟩)
            simp [_go_nil_unused_idle_ctx, h0, hlt]
          · refine Or.inl ?_
            simp [_go_nil_unused_idle_ctx, h0, hlt]

/-- One operation keeps the invariant: as many slots as accepted registrations, and every
live slot holds the function and the data registered at its index. -/
theorem IdleRun_step_inv (env : FuncEnv) (r : IdleRun) (op : IdleOp)
    (hlen : r.st.idleFnContexts.length = r.registered.length)
    (hslot : ∀ (i : Nat) (ctx : idleFnContext), r.st.idleFnContexts[i]? = some (some ctx) →
      r.registered[i]? = some (ctx.f, ctx.args)) :
    (IdleRun.step env r op).st.idleFnContexts.length = (IdleRun.step env r op).registered.length ∧
    (∀ (i : Nat) (ctx : idleFnContext), (IdleRun.step env r op).st.idleFnContexts[i]? = some (some ctx) →
      (IdleRun.step env r op).registered[i]? = some (ctx.f, ctx.args)) := by
  rcases IdleRun_step_cases env r op with ⟨h1, h2⟩ | ⟨n, hn, h1, h2⟩ | ⟨f, datas, idl, h1, h2⟩
  · rw [h1, h2]; exact ⟨hlen, hslot⟩
  · rw [h1, h2]
    refine ⟨by simp [hlen], ?_⟩
    intro i ctx hi
    by_cases hin : n = i
    · subst hin
      simp [List.getElem?_set, hn] at hi
    · rw [List.getElem?_set_ne hin] at hi
      exact hslot i ctx hi
  · rw [h1, h2]
    refine ⟨by simp [hlen], ?_⟩
    intro i ctx hi
    by_cases hlt : i < r.st.idleFnContexts.length
    · rw [List.getElem?_append_left hlt] at hi
      rw [List.getElem?_append_left (by omega)]
      exact hslot i ctx hi
    · by_cases heq : i = r.st.idleFnContexts.length
      · subst heq
        rw [getElem?_append_last] at hi
        simp only [Option.some.injEq] at hi
        subst hi
        rw [hlen, getElem?_append_last]
      · have : (r.st.idleFnContexts ++ [some ⟨f, datas, idl⟩])[i]? = none :=
          List.getElem?_eq_none (by simp; omega)
        rw [this] at hi
        simp at hi

/-- One operation never shortens the registry, never revives a nulled slot and never changes
an accepted registration. -/
theorem IdleRun_step_mono (env : FuncEnv) (r : IdleRun) (op : IdleOp) :
    r.st.idleFnContexts.length ≤ (IdleRun.step env r op).st.idleFnContexts.length ∧
    (∀ (i : Nat), r.st.idleFnContexts[i]? = some none →
      (IdleRun.step env r op).st.idleFnContexts[i]? = some none) ∧
    (∀ (i : Nat), i < r.registered.length →
      (IdleRun.step env r op).registered[i]? = r.registered[i]?) := by
  rcases IdleRun_step_cases env r op with ⟨h1, h2⟩ | ⟨n, hn, h1, h2⟩ | ⟨f, datas, idl, h1, h2⟩
  · rw [h1, h2]; exact ⟨le_refl _, fun _ h => h, fun _ _ => rfl⟩
  · rw [h1, h2]
    refine ⟨by simp, ?_, fun _ _ => rfl⟩
    intro i hi
    by_cases hin : n = i
    · subst hin; simp [List.getElem?_set, hn]
    · rw [List.getElem?_set_ne hin]; exact hi
  · rw [h1, h2]
    refine ⟨by simp, ?_, ?_⟩
    · intro i hi
      have hlt : i < r.st.idleFnContexts.length := by
        by_contra hge
        rw [List.getElem?_eq_none (by omega)] at hi
        simp at hi
      rw [List.getElem?_append_left hlt]; exact hi
    · intro i hi
      rw [List.getElem?_append_left hi]

theorem IdleRun_run_inv (env : FuncEnv) (ops : List IdleOp) :
    ∀ r : IdleRun, r.st.idleFnContexts.length = r.registered.length →
      (∀ (i : Nat) (ctx : idleFnContext), r.st.idleFnContexts[i]? = some (some ctx) →
        r.registered[i]? = some (ctx.f, ctx.args)) →
      (IdleRun.run env r ops).st.idleFnContexts.length = (IdleRun.run env r ops).registered.length ∧
      (∀ (i : Nat) (ctx : idleFnContext), (IdleRun.run env r ops).st.idleFnContexts[i]? = some (some ctx) →
        (IdleRun.run env r ops).registered[i]? = some (ctx.f, ctx.args)) := by
  induction ops with
  | nil => intro r h1 h2; exact ⟨h1, h2⟩
  | cons op rest ih =>
      intro r h1 h2
      have h := IdleRun_step_inv env r op h1 h2
      exact ih (IdleRun.step env r op) h.1 h.2

theorem IdleRun_run_mono (env : FuncEnv) (ops : List IdleOp) :
    ∀ r : IdleRun,
      r.st.idleFnContexts.length ≤ (IdleRun.run env r ops).st.idleFnContexts.length ∧
      (∀ (i : Nat), r.st.idleFnContexts[i]? = some none →
        (IdleRun.run env r ops).st.idleFnContexts[i]? = some none) ∧
      (∀ (i : Nat), i < r.registered.length →
        (IdleRun.run env r ops).registered[i]? = r.registered[i]?) ∧
      r.registered.length ≤ (IdleRun.run env r ops).registered.length := by
  induction ops with
  | nil => intro r; exact ⟨le_refl _, fun _ h => h, fun _ _ => rfl, le_refl _⟩
  | cons op rest ih =>
      intro r
      have h := IdleRun_step_mono env r op
      have h2 := ih (IdleRun.step env r op)
      have hreg : r.registered.length ≤ (IdleRun.step env r op).registered.length := by
        rcases IdleRun_step_cases env r op with ⟨_, e⟩ | ⟨_, _, _, e⟩ | ⟨_, _, _, _, e⟩ <;>
          simp [e]
      refine ⟨le_trans h.1 h2.1, fun i hi => h2.2.1 i (h.2.1 i hi), ?_, le_trans hreg h2.2.2.2⟩
      intro i hi
      have := h2.2.2.1 i (by omega)
      simp only [IdleRun.run, List.foldl_cons] at this ⊢
      rw [this]; exact h.2.2 i hi

theorem liveSlots_le {α : Type} (s : List (Option α)) : liveSlots s ≤ s.length := by
  unfold liveSlots; exact List.length_filter_le _ _

/-- C16.  For every sequence `ops` of `IdleAdd`, `_go_glib_idle_fn` and
`_go_nil_unused_idle_ctx` operations run from the empty idle registry, and every
continuation `more` of it: the registry is as long as the number of registrations accepted
so far; the number of live slots is at most that number; every live slot holds the function
and the data of the registration accepted at its index; and after the continuation the
registry is not shorter, every slot that was nil is still nil, and the registrations accepted
before are unchanged at their indices. -/
theorem idle_registry_invariant (env : FuncEnv) (ops more : List IdleOp) :
    (IdleRun.run env .init ops).st.idleFnContexts.length =
      (IdleRun.run env .init ops).registered.length ∧
    liveSlots (IdleRun.run env .init ops).st.idleFnContexts ≤
      (IdleRun.run env .init ops).registered.length ∧
    (∀ (i : Nat) (ctx : idleFnContext), (IdleRun.run env .init ops).st.idleFnContexts[i]? = some (some ctx) →
      (IdleRun.run env .init ops).registered[i]? = some (ctx.f, ctx.args)) ∧
    (IdleRun.run env .init ops).st.idleFnContexts.length ≤
      (IdleRun.run env .init (ops ++ more)).st.idleFnContexts.length ∧
    (∀ (i : Nat), (IdleRun.run env .init ops).st.idleFnContexts[i]? = some none →
      (IdleRun.run env .init (ops ++ more)).st.idleFnContexts[i]? = some none) ∧
    (∀ (i : Nat), i < (IdleRun.run env .init ops).registered.length →
      (IdleRun.run env .init (ops ++ more)).registered[i]? =
        (IdleRun.run env .init ops).registered[i]?) := by
  have hinv := IdleRun_run_inv env ops IdleRun.init rfl (by intro i ctx h; simp [IdleRun.init] at h)
  have happ : IdleRun.run env .init (ops ++ more) =
      IdleRun.run env (IdleRun.run env .init ops) more := by
    simp [IdleRun.run, List.foldl_append]
  have hmono := IdleRun_run_mono env more (IdleRun.run env .init ops)
  rw [happ]
  refine ⟨hinv.1, ?_, hinv.2, hmono.1, hmono.2.1, hmono.2.2.1⟩
  rw [← hinv.1]; exact liveSlots_le _

/-- C16, witness: two accepted registrations, a rejected one, a firing of slot 0, the removal
of slot 0, and one more accepted registration as continuation. -/
theorem idle_registry_invariant_witness :
    (IdleRun.run (fun _ _ => .ok (fun _ => .bool false)) .init
        [.add (.val (.func [] [.basic .bool]) (.fn (some 1))) [] 7,
         .add (.val (.func [.basic .int] []) (.fn (some 2))) [goInt 5] 8,
         .add (goInt 3) [] 9, .fire 0, .unused 0]).st.idleFnContexts =
      [none, some ⟨.val (.func [.basic .int] []) (.fn (some 2)), [goInt 5], some ⟨1, 8⟩⟩] ∧
    (IdleRun.run (fun _ _ => .ok (fun _ => .bool false)) .init
        [.add (.val (.func [] [.basic .bool]) (.fn (some 1))) [] 7,
         .add (.val (.func [.basic .int] []) (.fn (some 2))) [goInt 5] 8,
         .add (goInt 3) [] 9, .fire 0, .unused 0]).registered =
      [(.val (.func [] [.basic .bool]) (.fn (some 1)), []),
       (.val (.func [.basic .int] []) (.fn (some 2)), [goInt 5])] ∧
    liveSlots (IdleRun.run (fun _ _ => .ok (fun _ => .bool false)) .init
        [.add (.val (.func [] [.basic .bool]) (.fn (some 1))) [] 7,
         .add (.val (.func [.basic .int] []) (.fn (some 2))) [goInt 5] 8,
         .add (goInt 3) [] 9, .fire 0, .unused 0]).st.idleFnContexts ≤
      (IdleRun.run (fun _ _ => .ok (fun _ => .bool false)) .init
        [.add (.val (.func [] [.basic .bool]) (.fn (some 1))) [] 7,
         .add (.val (.func [.basic .int] []) (.fn (some 2))) [goInt 5] 8,
         .add (goInt 3) [] 9, .fire 0, .unused 0]).registered.length :=
  ⟨by decide, by decide,
   (idle_registry_invariant (fun _ _ => .ok (fun _ => .bool false))
      [.add (.val (.func [] [.basic .bool]) (.fn (some 1))) [] 7,
       .add (.val (.func [.basic .int] []) (.fn (some 2))) [goInt 5] 8,
       .add (goInt 3) [] 9, .fire 0, .unused 0]
      [.add (.val (.func [] []) (.fn (some 3))) [] 10]).2.1⟩

/-! ## C17: the trampoline on a nulled slot -/

/-- C17.  The idle trampoline fired for a slot that `_go_nil_unused_idle_ctx` has nulled, for
a slot that holds nil, or for an index outside the registry, invokes no host function and
does not complete with a native result: it panics. -/
theorem idle_fn_nil_slot_fatal (env : FuncEnv) (st : State) (n : Int) :
    (∀ st1, _go_nil_unused_idle_ctx st n = .ok st1 →
      ∃ p, _go_glib_idle_fn env st1 n = ([], .error p)) ∧
    (0 ≤ n → st.idleFnContexts[n.toNat]? = some none →
      ∃ p, _go_glib_idle_fn env st n = ([], .error p)) ∧
    ((n < 0 ∨ (st.idleFnContexts.length : Int) ≤ n) →
      ∃ p, _go_glib_idle_fn env st n = ([], .error p)) := by
  have hnil : ∀ s : State, 0 ≤ n → s.idleFnContexts[n.toNat]? = some none →
      ∃ p, _go_glib_idle_fn env s n = ([], .error p) := by
    intro s h0 hs
    have h1 : ¬ n < 0 := by omega
    exact ⟨"invalid memory address or nil pointer dereference",
      by simp only [_go_glib_idle_fn, h1, if_false, hs]⟩
  refine ⟨?_, hnil st, ?_⟩
  · intro st1 h
    unfold _go_nil_unused_idle_ctx at h
    split at h
    · simp at h
    · split at h
      · rename_i h0 hlt
        simp only [Except.ok.injEq] at h
        subst h
        exact hnil _ (by omega) (by simp [List.getElem?_set, hlt])
      · simp at h
  · intro h
    by_cases h0 : n < 0
    · exact ⟨"index out of range", by simp only [_go_glib_idle_fn, h0, if_true]⟩
    · have hge : st.idleFnContexts.length ≤ n.toNat := by omega
      have hnone : st.idleFnContexts[n.toNat]? = none := List.getElem?_eq_none hge
      exact ⟨"index out of range", by simp only [_go_glib_idle_fn, h0, if_false, hnone]⟩

/-- C17, witness: slot 0 nulled in a registry of one slot, then fired; a registry whose only
slot holds nil; and the index 5 outside a registry of one slot. -/
theorem idle_fn_nil_slot_fatal_witness :
    _go_nil_unused_idle_ctx ⟨[], [some ⟨goInt 1, [], none⟩], []⟩ 0 = .ok ⟨[], [none], []⟩ ∧
    (∃ p, _go_glib_idle_fn (fun _ _ => .ok (fun _ => .bool true)) ⟨[], [none], []⟩ 0 =
      ([], .error p)) ∧
    (∃ p, _go_glib_idle_fn (fun _ _ => .ok (fun _ => .bool true)) ⟨[], [none], []⟩ 0 =
      ([], .error p)) ∧
    (∃ p, _go_glib_idle_fn (fun _ _ => .ok (fun _ => .bool true))
      ⟨[], [some ⟨goInt 1, [], none⟩], []⟩ 5 = ([], .error p)) :=
  ⟨by decide,
   (idle_fn_nil_slot_fatal (fun _ _ => .ok (fun _ => .bool true))
      ⟨[], [some ⟨goInt 1, [], none⟩], []⟩ 0).1 ⟨[], [none], []⟩ (by decide),
   (idle_fn_nil_slot_fatal (fun _ _ => .ok (fun _ => .bool true)) ⟨[], [none], []⟩ 0).2.1
      (by decide) (by decide),
   (idle_fn_nil_slot_fatal (fun _ _ => .ok (fun _ => .bool true))
      ⟨[], [some ⟨goInt 1, [], none⟩], []⟩ 5).2.2 (Or.inr (by decide))⟩

/-! ## C18: `Object.Set` on the basic types -/

theorem Set_unwrap_basic (b : Basic) (x : Payload) :
    Object.Set.unwrap (.val (.basic b) x) = .val (.basic b) x := by
  cases x <;> simp [Object.Set.unwrap, objectType]

theorem Set_convert_basic (b : Basic) (x : Payload)
    (hb1 : b ≠ .complex64) (hb2 : b ≠ .complex128) (h1 : b ≠ .uintptr)
    (h2 : b ≠ .unsafePointer) :
    ∃ p, p.isNil = false ∧ Object.Set.convert (.val (.basic b) x) = .ok (some p) := by
  cases b <;> first
    | exact absurd rfl hb1
    | exact absurd rfl hb2
    | exact absurd rfl h1
    | exact absurd rfl h2
    | (refine ⟨_, ?_, rfl⟩; rfl)

/-- C18, counterexample.  For the `uintptr` value 0 and for the nil `unsafe.Pointer`, whose
static types have a conversion case, `Object.Set` makes no native call and returns the error
"Unable to perform type conversion". -/
theorem Set_nil_pointer_fails :
    Object.Set (some ⟨1, ⟨4096⟩⟩) [120] (.val (.basic .uintptr) (.int 0)) =
      .ok (some "Unable to perform type conversion", []) ∧
    Object.Set (some ⟨1, ⟨4096⟩⟩) [120] (.val (.basic .unsafePointer) (.ptr 0)) =
      .ok (some "Unable to perform type conversion", []) := by
  decide

/-- C18, amended.  `Object.Set` fails with the error "Unable to perform type conversion"
when the pointer it would hand to the native setter is nil.  For every value whose static
type is bool, int8, int16, int32, int64, int, uint8, uint16, uint32, uint64, uint, float32,
float64 or string, whatever the value, `Set` performs the native property set with a non-nil
pointer and returns nil.  For a value of static type uintptr or unsafe.Pointer the value
itself is the pointer: `Set` performs the native property set and returns nil when the value
is not zero (not nil), and returns the error without a native call when it is. -/
theorem Set_basic_types (v : ObjectRef) (name : GoString) (b : Basic) (x : Payload)
    (hb : b ≠ .complex64 ∧ b ≠ .complex128) :
    ((b ≠ .uintptr ∧ b ≠ .unsafePointer) →
      ∃ p, p.isNil = false ∧
        Object.Set (some v) name (.val (.basic b) x) =
          .ok (none, [⟨v.obj.GObject, CString name, p⟩])) ∧
    ((b = .uintptr ∨ b = .unsafePointer) → x.toPtr ≠ 0 →
      Object.Set (some v) name (.val (.basic b) x) =
        .ok (none, [⟨v.obj.GObject, CString name, .raw x.toPtr⟩])) ∧
    ((b = .uintptr ∨ b = .unsafePointer) → x.toPtr = 0 →
      Object.Set (some v) name (.val (.basic b) x) =
        .ok (some "Unable to perform type conversion", [])) := by
  obtain ⟨hb1, hb2⟩ := hb
  refine ⟨?_, ?_, ?_⟩
  · rintro ⟨h1, h2⟩
    obtain ⟨p, hp, hc⟩ := Set_convert_basic b x hb1 hb2 h1 h2
    exact ⟨p, hp, by simp [Object.Set, Set_unwrap_basic, hc, hp, GObjectOf]⟩
  · rintro (h | h) hx <;> subst h <;>
      simp [Object.Set, Set_unwrap_basic, Object.Set.convert, SetArg.isNil, GObjectOf, hx]
  · rintro (h | h) hx <;> subst h <;>
      simp [Object.Set, Set_unwrap_basic, Object.Set.convert, SetArg.isNil, hx]

/-- C18, witness: the `int` value 0, the `string` "x", and the `unsafe.Pointer` values 4096
and nil. -/
theorem Set_basic_types_witness :
    (∃ p, p.isNil = false ∧
      Object.Set (some ⟨1, ⟨4096⟩⟩) [120] (.val (.basic .int) (.int 0)) =
        .ok (none, [⟨4096, CString [120], p⟩])) ∧
    (∃ p, p.isNil = false ∧
      Object.Set (some ⟨1, ⟨4096⟩⟩) [120] (.val (.basic .string) (.str [120])) =
        .ok (none, [⟨4096, CString [120], p⟩])) ∧
    Object.Set (some ⟨1, ⟨4096⟩⟩) [120] (.val (.basic .unsafePointer) (.ptr 4096)) =
      .ok (none, [⟨4096, CString [120], .raw 4096⟩]) ∧
    Object.Set (some ⟨1, ⟨4096⟩⟩) [120] (.val (.basic .unsafePointer) (.ptr 0)) =
      .ok (some "Unable to perform type conversion", []) :=
  ⟨(Set_basic_types ⟨1, ⟨4096⟩⟩ [120] .int (.int 0) (by decide)).1 (by decide),
   (Set_basic_types ⟨1, ⟨4096⟩⟩ [120] .string (.str [120]) (by decide)).1 (by decide),
   (Set_basic_types ⟨1, ⟨4096⟩⟩ [120] .unsafePointer (.ptr 4096) (by decide)).2.1
     (Or.inr rfl) (by decide),
   (Set_basic_types ⟨1, ⟨4096⟩⟩ [120] .unsafePointer (.ptr 0) (by decide)).2.2
     (Or.inr rfl) (by decide)⟩

/-! ## C19: `Object.Set` on named types -/

theorem Set_unwrap_named (n : String) (u : RType) (x : Payload)
    (hk : (RType.named n u).kind ≠ Kind.Struct) :
    Object.Set.unwrap (.val (.named n u) x) = .val (.named n u) x := by
  have hne : RType.named n u ≠ objectType := by
    intro e; rw [e] at hk; exact hk (by decide)
  cases x <;> simp [Object.Set.unwrap, hne]

/-- C19, counterexample.  With `type Flag bool`, `Set(name, Flag(true))` returns the error
"Unable to perform type conversion" and makes no native call, while `Set(name, true)` makes
the native call and returns nil.  With `type Big int64`, `Set(name, Big(2^40))` hands the
native library the 32-bit value 0, while `Set(name, int64(2^40))` hands it the 64-bit value
`2^40`. -/
theorem Set_named_differs :
    Object.Set (some ⟨1, ⟨4096⟩⟩) [120] (.val (.named "Flag" (.basic .bool)) (.bool true)) =
      .ok (some "Unable to perform type conversion", []) ∧
    Object.Set (some ⟨1, ⟨4096⟩⟩) [120] (.val (.basic .bool) (.bool true)) =
      .ok (none, [⟨4096, [120, 0], .cell .gboolean 1⟩]) ∧
    Object.Set (some ⟨1, ⟨4096⟩⟩) [120]
        (.val (.named "Big" (.basic .int64)) (.int 1099511627776)) =
      .ok (none, [⟨4096, [120, 0], .cell .int 0⟩]) ∧
    Object.Set (some ⟨1, ⟨4096⟩⟩) [120] (.val (.basic .int64) (.int 1099511627776)) =
      .ok (none, [⟨4096, [120, 0], .cell .gint64 1099511627776⟩]) ∧
    CType.bits .int ≠ CType.bits .gint64 := by
  decide

/-- C19, amended.  When no exact static type matches, `Object.Set` decides by the runtime
kind of the value for the signed integer kinds only.  For every named type `T` whose
underlying type is int, int8, int16, int32 or int64 and every value `x`, `Set(name, T(x))`
performs the native property set with `x` converted to a 32-bit `C.int` and returns nil;
this is the value and the width that `Set(name, x)` hands over when the underlying type is
int, and also when it is int32 and `x` is in the 32-bit range.  For every named type whose
underlying type is an unsigned integer type (uint, uint8, uint16, uint32, uint64), float32,
float64, bool or string, `Set(name, T(x))` returns the error "Unable to perform type
conversion" and makes no native call. -/
theorem Set_named_types (v : ObjectRef) (name : GoString) (n : String) (u : RType)
    (x : Payload) :
    ((RType.named n u).kind ∈ [Kind.Int, Kind.Int8, Kind.Int16, Kind.Int32, Kind.Int64] →
      Object.Set (some v) name (.val (.named n u) x) =
        .ok (none, [⟨v.obj.GObject, CString name, .cell .int (toInt32 x.toInt)⟩])) ∧
    ((RType.named n u).kind ∈ [Kind.Uint, Kind.Uint8, Kind.Uint16, Kind.Uint32, Kind.Uint64,
        Kind.Float32, Kind.Float64, Kind.Bool, Kind.String] →
      Object.Set (some v) name (.val (.named n u) x) =
        .ok (some "Unable to perform type conversion", [])) ∧
    (Object.Set (some v) name (.val (.basic .int) x) =
        .ok (none, [⟨v.obj.GObject, CString name, .cell .gint (toInt32 x.toInt)⟩]) ∧
      CType.bits .gint = CType.bits .int) ∧
    (Object.Set (some v) name (.val (.basic .int32) x) =
        .ok (none, [⟨v.obj.GObject, CString name, .cell .gint32 x.toInt⟩]) ∧
      CType.bits .gint32 = CType.bits .int ∧
      (-2147483648 ≤ x.toInt ∧ x.toInt < 2147483648 → toInt32 x.toInt = x.toInt)) := by
  refine ⟨?_, ?_, ⟨?_, rfl⟩, ⟨?_, rfl, fun h => toInt32_of_range _ h⟩⟩
  · intro hk
    have hs : (RType.named n u).kind ≠ Kind.Struct := by
      intro e; rw [e] at hk; simp at hk
    simp only [List.mem_cons, List.mem_singleton, List.not_mem_nil, or_false] at hk
    rcases hk with h | h | h | h | h <;>
      simp [Object.Set, Set_unwrap_named n u x hs, Object.Set.convert, HostValue.kind, h,
        SetArg.isNil, GObjectOf]
  · intro hk
    have hs : (RType.named n u).kind ≠ Kind.Struct := by
      intro e; rw [e] at hk; simp at hk
    simp only [List.mem_cons, List.mem_singleton, List.not_mem_nil, or_false] at hk
    rcases hk with h | h | h | h | h | h | h | h | h <;>
      simp [Object.Set, Set_unwrap_named n u x hs, Object.Set.convert, HostValue.kind, h]
  · simp [Object.Set, Set_unwrap_basic, Object.Set.convert, SetArg.isNil, GObjectOf]
  · simp [Object.Set, Set_unwrap_basic, Object.Set.convert, SetArg.isNil, GObjectOf]

/-- C19, witness: the named types `Align` (underlying int) and `Flag` (underlying bool). -/
theorem Set_named_types_witness :
    Object.Set (some ⟨1, ⟨4096⟩⟩) [120] (.val (.named "Align" (.basic .int)) (.int 3)) =
      .ok (none, [⟨4096, CString [120], .cell .int (toInt32 (Payload.int 3).toInt)⟩]) ∧
    Object.Set (some ⟨1, ⟨4096⟩⟩) [120] (.val (.named "Flag" (.basic .bool)) (.bool true)) =
      .ok (some "Unable to perform type conversion", []) :=
  ⟨(Set_named_types ⟨1, ⟨4096⟩⟩ [120] "Align" (.basic .int) (.int 3)).1 (by decide),
   (Set_named_types ⟨1, ⟨4096⟩⟩ [120] "Flag" (.basic .bool) (.bool true)).2.1 (by decide)⟩

/-! ## C20: the boolean conversions -/

/-- C20.  The boolean conversions are mutually inverse: `gobool(gbool(b)) = b` for every Go
bool `b`, and `gbool(gobool(c)) = c` for the gboolean values 0 and 1; for every other `c`
(every `c` that is not 0), `gbool(gobool(c)) = 1`.  The copies of the two functions in
package gtk compute the same functions as those in package glib, and `testBoolConvs` returns
nil. -/
theorem bool_conversions :
    (∀ b : Bool, gobool (gbool b) = b) ∧
    gbool (gobool 0) = 0 ∧ gbool (gobool 1) = 1 ∧
    (∀ c : Int, c ≠ 0 → gbool (gobool c) = 1) ∧
    (∀ b : Bool, Gtk.gbool b = gbool b) ∧
    (∀ c : Int, Gtk.gobool c = gobool c) ∧
    (∀ b : Bool, Gtk.gobool (Gtk.gbool b) = b) ∧
    (∀ c : Int, c ≠ 0 → Gtk.gbool (Gtk.gobool c) = 1) ∧
    Gtk.gbool (Gtk.gobool 0) = 0 ∧
    Gtk.testBoolConvs = none := by
  refine ⟨?_, rfl, rfl, ?_, fun _ => rfl, fun _ => rfl, ?_, ?_, rfl, rfl⟩
  · intro b; cases b <;> rfl
  · intro c hc; simp [gobool, gbool, hc]
  · intro b; cases b <;> rfl
  · intro c hc; simp [Gtk.gobool, Gtk.gbool, hc]

/-- C20, witness: `b = true`, `c = 0`, and `c = 5` for a gboolean other than 0 and 1. -/
theorem bool_conversions_witness :
    gobool (gbool true) = true ∧ gbool (gobool 0) = 0 ∧ gbool (gobool 5) = 1 ∧
    Gtk.gbool (Gtk.gobool 5) = 1 :=
  ⟨bool_conversions.1 true, bool_conversions.2.1, bool_conversions.2.2.2.1 5 (by decide),
   bool_conversions.2.2.2.2.2.2.2.1 5 (by decide)⟩

/-! ## C21: the constants of package gtk -/

/-- C21.  Every Go constant paired in the table of `testConsts` equals the GTK 3 C value of
the same name, so `testConsts` returns nil.  The plain enumerations are consecutive from 0 in
declaration order; `DIALOG_MODAL = 1` and `DIALOG_DESTROY_WITH_PARENT = 2`;
`TREE_MODEL_ITERS_PERSIST = 1` and `TREE_MODEL_LIST_ONLY = 2`; the `ResponseType` constants
are -1, -2, ..., -11; `INPUT_HINT_NONE = 0` and the eight hints are 1, 2, 4, ..., 128, which
are pairwise disjoint single bits. -/
theorem gtk_constants :
    Gtk.testConsts = none ∧
    Gtk.testConsts.tests.length = 79 ∧
    (∀ p ∈ Gtk.testConsts.tests, p.1 = p.2) ∧
    [Gtk.ALIGN_FILL, Gtk.ALIGN_START, Gtk.ALIGN_END, Gtk.ALIGN_CENTER] = [0, 1, 2, 3] ∧
    [Gtk.BUTTONS_NONE, Gtk.BUTTONS_OK, Gtk.BUTTONS_CLOSE, Gtk.BUTTONS_CANCEL,
      Gtk.BUTTONS_YES_NO, Gtk.BUTTONS_OK_CANCEL] = [0, 1, 2, 3, 4, 5] ∧
    [Gtk.ENTRY_ICON_PRIMARY, Gtk.ENTRY_ICON_SECONDARY] = [0, 1] ∧
    [Gtk.IMAGE_EMPTY, Gtk.IMAGE_PIXBUF, Gtk.IMAGE_STOCK, Gtk.IMAGE_ICON_SET,
      Gtk.IMAGE_ANIMATION, Gtk.IMAGE_ICON_NAME, Gtk.IMAGE_GICON] = [0, 1, 2, 3, 4, 5, 6] ∧
    [Gtk.INPUT_PURPOSE_FREE_FORM, Gtk.INPUT_PURPOSE_ALPHA, Gtk.INPUT_PURPOSE_DIGITS,
      Gtk.INPUT_PURPOSE_NUMBER, Gtk.INPUT_PURPOSE_PHONE, Gtk.INPUT_PURPOSE_URL,
      Gtk.INPUT_PURPOSE_EMAIL, Gtk.INPUT_PURPOSE_NAME, Gtk.INPUT_PURPOSE_PASSWORD,
      Gtk.INPUT_PURPOSE_PIN] = [0, 1, 2, 3, 4, 5, 6, 7, 8, 9] ∧
    [Gtk.MESSAGE_INFO, Gtk.MESSAGE_WARNING, Gtk.MESSAGE_QUESTION, Gtk.MESSAGE_ERROR,
      Gtk.MESSAGE_OTHER] = [0, 1, 2, 3, 4] ∧
    [Gtk.ORIENTATION_HORIZONTAL, Gtk.ORIENTATION_VERTICAL] = [0, 1] ∧
    [Gtk.PACK_START, Gtk.PACK_END] = [0, 1] ∧
    [Gtk.POLICY_ALWAYS, Gtk.POLICY_AUTOMATIC, Gtk.POLICY_NEVER] = [0, 1, 2] ∧
    [Gtk.POS_LEFT, Gtk.POS_RIGHT, Gtk.POS_TOP, Gtk.POS_BOTTOM] = [0, 1, 2, 3] ∧
    [Gtk.RELIEF_NORMAL, Gtk.RELIEF_HALF, Gtk.RELIEF_NONE] = [0, 1, 2] ∧
    [Gtk.WIN_POS_NONE, Gtk.WIN_POS_CENTER, Gtk.WIN_POS_MOUSE, Gtk.WIN_POS_CENTER_ALWAYS,
      Gtk.WIN_POS_CENTER_ON_PARENT] = [0, 1, 2, 3, 4] ∧
    [Gtk.WINDOW_TOPLEVEL, Gtk.WINDOW_POPUP] = [0, 1] ∧
    [Gtk.DIALOG_MODAL, Gtk.DIALOG_DESTROY_WITH_PARENT] = [1, 2] ∧
    [Gtk.TREE_MODEL_ITERS_PERSIST, Gtk.TREE_MODEL_LIST_ONLY] = [1, 2] ∧
    [Gtk.RESPONSE_NONE, Gtk.RESPONSE_REJECT, Gtk.RESPONSE_ACCEPT, Gtk.RESPONSE_DELETE_EVENT,
      Gtk.RESPONSE_OK, Gtk.RESPONSE_CANCEL, Gtk.RESPONSE_CLOSE, Gtk.RESPONSE_YES,
      Gtk.RESPONSE_NO, Gtk.RESPONSE_APPLY, Gtk.RESPONSE_HELP] =
      [-1, -2, -3, -4, -5, -6, -7, -8, -9, -10, -11] ∧
    Gtk.INPUT_HINT_NONE = 0 ∧
    [Gtk.INPUT_HINT_SPELLCHECK, Gtk.INPUT_HINT_NO_SPELLCHECK, Gtk.INPUT_HINT_WORD_COMPLETION,
      Gtk.INPUT_HINT_LOWERCASE, Gtk.INPUT_HINT_UPPERCASE_CHARS,
      Gtk.INPUT_HINT_UPPERCASE_WORDS, Gtk.INPUT_HINT_UPPERCASE_SENTENCES,
      Gtk.INPUT_HINT_INHIBIT_OSK] = [1, 2, 4, 8, 16, 32, 64, 128] ∧
    List.Pairwise (fun a b : Int => a.toNat &&& b.toNat = 0)
      [Gtk.INPUT_HINT_SPELLCHECK, Gtk.INPUT_HINT_NO_SPELLCHECK, Gtk.INPUT_HINT_WORD_COMPLETION,
        Gtk.INPUT_HINT_LOWERCASE, Gtk.INPUT_HINT_UPPERCASE_CHARS,
        Gtk.INPUT_HINT_UPPERCASE_WORDS, Gtk.INPUT_HINT_UPPERCASE_SENTENCES,
        Gtk.INPUT_HINT_INHIBIT_OSK] := by
  have htable : Gtk.testConsts = none ∧ Gtk.testConsts.tests.length = 79 ∧
      (∀ p ∈ Gtk.testConsts.tests, p.1 = p.2) := by decide
  have hbits : List.Pairwise (fun a b : Int => a.toNat &&& b.toNat = 0)
      [Gtk.INPUT_HINT_SPELLCHECK, Gtk.INPUT_HINT_NO_SPELLCHECK, Gtk.INPUT_HINT_WORD_COMPLETION,
        Gtk.INPUT_HINT_LOWERCASE, Gtk.INPUT_HINT_UPPERCASE_CHARS,
        Gtk.INPUT_HINT_UPPERCASE_WORDS, Gtk.INPUT_HINT_UPPERCASE_SENTENCES,
        Gtk.INPUT_HINT_INHIBIT_OSK] := by decide
  obtain ⟨h1, h2, h3⟩ := htable
  refine ⟨h1, h2, h3, ?_⟩
  repeat' apply And.intro
  all_goals first
    | exact hbits
    | rfl

/-! ## C22: the accessors of the callback context -/

/-- C22, the code at the failing input.  For every object `v` and handler `f`, the context
that `v.Connect(s, f)` registers, and the one that `v.ConnectWithData(s, f, nil)` registers,
hold the zero `reflect.Value` as data: `Target()` returns `v`, but `Data()` panics in
`reflect.Value.Interface` instead of returning nil.  For the non-nil data `1`, `Data()`
returns it. -/
theorem Data_panics_without_data (st : State) (v : ObjectRef) (s : GoString) (f : HostValue)
    (cbi : Ptr) :
    Object.Connect st (some v) s f cbi =
      .ok (st.callbackContexts.length,
        { st with
          callbackContexts := st.callbackContexts ++ [some ⟨f, cbi, objectValue (some v), .nil⟩]
          native := st.native ++
            [._g_signal_connect v.obj.GObject (CString s) (toInt32 st.callbackContexts.length)] }) ∧
    Object.ConnectWithData st (some v) s f .nil cbi = Object.Connect st (some v) s f cbi ∧
    CallbackContext.Target ⟨f, cbi, objectValue (some v), .nil⟩ = .ok (objectValue (some v)) ∧
    CallbackContext.Data ⟨f, cbi, objectValue (some v), .nil⟩ =
      .error "reflect: call of reflect.Value.Interface on zero Value" ∧
    CallbackContext.Data ⟨f, cbi, objectValue (some v), goInt 1⟩ = .ok (goInt 1) := by
  refine ⟨rfl, rfl, rfl, rfl, rfl⟩

/-! ## C23: concurrent registrations -/

/-- C23, the code at the failing interleaving.  Two calls of `connectCtx` on the empty
callback registry, scheduled so that both read the registry length before either appends,
both hand the token 0 to the native library and both return the handle 0, while their
contexts are stored at the indices 0 and 1: the token of the second registration resolves to
the context of the first.  Two calls of `IdleAdd` on the empty idle registry, scheduled so
that both append before either reads the length, both hand the token 1 to the native
library, while their contexts are stored at the indices 0 and 1.  Run alone, a call of
`connectCtx` takes the three steps of `Object.connectCtx`. -/
theorem concurrent_registrations_share_index :
    runConnects ⟨[], [], []⟩
        [⟨⟨1, ⟨4096⟩⟩, ⟨goInt 10, 0, .nil, .nil⟩, [97], 77, 0, 0⟩,
         ⟨⟨1, ⟨4096⟩⟩, ⟨goInt 20, 0, .nil, .nil⟩, [98], 78, 0, 0⟩]
        [0, 1, 0, 1, 0, 1] =
      (⟨[some ⟨goInt 10, 77, .nil, .nil⟩, some ⟨goInt 20, 78, .nil, .nil⟩], [],
        [._g_signal_connect 4096 [97, 0] 0, ._g_signal_connect 4096 [98, 0] 0]⟩,
       [⟨⟨1, ⟨4096⟩⟩, ⟨goInt 10, 77, .nil, .nil⟩, [97], 77, 3, 0⟩,
        ⟨⟨1, ⟨4096⟩⟩, ⟨goInt 20, 78, .nil, .nil⟩, [98], 78, 3, 0⟩]) ∧
    runIdleAdds ⟨[], [], []⟩ [⟨goInt 10, [], 7, 0, 0, 0⟩, ⟨goInt 20, [], 8, 0, 0, 0⟩]
        [0, 1, 0, 1, 0, 1] =
      (⟨[], [some ⟨goInt 10, [], some ⟨1, 7⟩⟩, some ⟨goInt 20, [], some ⟨1, 8⟩⟩],
        [._g_idle_add 1, ._g_idle_add 1]⟩,
       [⟨goInt 10, [], 7, 3, 0, 2⟩, ⟨goInt 20, [], 8, 3, 1, 2⟩]) ∧
    (runConnects ⟨[], [], []⟩ [⟨⟨1, ⟨4096⟩⟩, ⟨goInt 10, 0, .nil, .nil⟩, [97], 77, 0, 0⟩]
        [0, 0, 0]).1 =
      ⟨[some ⟨goInt 10, 77, .nil, .nil⟩], [], [._g_signal_connect 4096 [97, 0] 0]⟩ ∧
    Object.connectCtx ⟨[], [], []⟩ (some ⟨1, ⟨4096⟩⟩) ⟨goInt 10, 0, .nil, .nil⟩ [97]
        (goInt 10) 77 =
      .ok (0, ⟨[some ⟨goInt 10, 77, .nil, .nil⟩], [], [._g_signal_connect 4096 [97, 0] 0]⟩) := by
  refine ⟨by decide, by decide, by decide, by decide⟩

/-! ## C24: the signal trampoline -/

/-- C25, the code at the failing input.  The registration `IdleAdd(func(x interface{}) {}, 5)`
is well typed: the `int` value is assignable to the parameter of type `interface{}` and would
pass the argument check of `reflect.Value.Call`.  `IdleAdd` rejects it with the error of its
kind comparison and leaves the registry empty. -/
theorem IdleAdd_rejects_interface_parameter :
    RType.AssignableTo (.basic .int) (.iface []) = true ∧
    callArgsOk [.iface []] [goInt 5] = true ∧
    IdleAdd ⟨[], [], []⟩ (.val (.func [.iface []] []) (.fn (some 1))) [goInt 5] 7 =
      .ok ((0, some "Types of arg0do not match"), ⟨[], [], []⟩) := by
  decide

/-- C26, the code at the failing input.  For every `glib.Object` value, whatever its
`GObject` pointer, `Set(name, o)` makes no native call and returns the error "Unable to
perform type conversion": the unwrapped `*C.GObject` matches no case of the type switch, is
no `unsafe.Pointer`, and has the kind Ptr, which the default case does not handle. -/
theorem Set_rejects_object (v : ObjectRef) (name : GoString) (g : Ptr) :
    Object.Set.unwrap (.val objectType (.object g)) = .val cGObjectPtrType (.ptr g) ∧
    Object.Set (some v) name (.val objectType (.object g)) =
      .ok (some "Unable to perform type conversion", []) := by
  constructor <;> rfl

/-! ## C27: the writes of `ListStore.Set` -/

theorem nativeOf_some (o : ObjectRef) : Gtk.nativeOf (some (some o)) = .ok o.obj.GObject := by
  simp only [Gtk.nativeOf, GObjectOf]
  split <;> simp_all

theorem GValue_accepts_some (ok : Bool) (v : HostValue) (h : (GValue ok v).1.2 = none) :
    ∃ g, (GValue ok v).1.1 = some g := by
  unfold GValue at h ⊢
  split
  · cases ok
    · simp [ValueInit, _g_value_init] at h
    · exact ⟨_, rfl⟩
  · cases ok
    · simp [ValueInit, _g_value_init] at h
    · exact ⟨_, rfl⟩
  · simp at h

theorem listStore_native_some (o : ObjectRef) (tm : Gtk.TreeModel) :
    Gtk.ListStore.Native (some ⟨some o, tm⟩) = .ok o.obj.GObject := by
  simp only [Gtk.ListStore.Native, Option.map, nativeOf_some]

/-- The loop of `ListStore.Set` from index `k` on: with `i` the position in `vals` of the
first value that `glib.GValue` rejects, it makes the writes of the `i` values before it and
returns an error exactly when there is such a value. -/
theorem ListStore_loop_writes (oks : Nat → Bool) (o : ObjectRef) (tm : Gtk.TreeModel)
    (it : Ptr) (columns : List Int) :
    ∀ (vals : List HostValue) (k i : Nat), i ≤ vals.length →
      (∀ (j : Nat), j < vals.length → ∃ c, columns[k + j]? = some c) →
      (∀ (j : Nat) (v : HostValue), j < i → vals[j]? = some v →
        (GValue (oks (k + j)) v).1.2 = none) →
      (∀ (v : HostValue), vals[i]? = some v → (GValue (oks (k + i)) v).1.2 ≠ none) →
      ∃ e ws, Gtk.ListStore.Set.loop oks (some ⟨some o, tm⟩) (some it) columns k vals =
          .ok (e, ws) ∧
        ws.length = i ∧ (e ≠ none ↔ i < vals.length) ∧
        ∀ (j : Nat) (v : HostValue) (c : Int), j < i → vals[j]? = some v →
          columns[k + j]? = some c →
          ∃ g, (GValue (oks (k + j)) v).1.1 = some g ∧
            ws[j]? = some ⟨o.obj.GObject, it, toInt32 c, g.GValue⟩ := by
  intro vals
  induction vals with
  | nil =>
      intro k i hi _ _ _
      have : i = 0 := by simpa using hi
      subst this
      exact ⟨none, [], rfl, rfl, by simp, fun j v c hj => absurd hj (by omega)⟩
  | cons val rest ih =>
      intro k i hi hcol hacc hrej
      cases i with
      | zero =>
          have hr := hrej val (by simp)
          rcases hg : GValue (oks k) val with ⟨⟨a, e⟩, log⟩
          rw [Nat.add_zero, hg] at hr
          cases e with
          | none => exact absurd rfl hr
          | some err =>
              refine ⟨some err, [], ?_, rfl, by simp, fun j v c hj => absurd hj (by omega)⟩
              simp only [Gtk.ListStore.Set.loop, hg]
      | succ i1 =>
          have ha := hacc 0 val (by omega) (by simp)
          obtain ⟨gv, hgv⟩ := GValue_accepts_some _ _ ha
          rcases hg : GValue (oks k) val with ⟨⟨a, e⟩, log⟩
          rw [Nat.add_zero, hg] at ha hgv
          simp only at ha hgv
          subst ha
          subst hgv
          obtain ⟨col, hc⟩ := hcol 0 (by simp)
          rw [Nat.add_zero] at hc
          have hi1 : i1 ≤ rest.length := by simpa using hi
          obtain ⟨e1, ws1, hl, hlen, herr, hws⟩ := ih (k + 1) i1 hi1
            (fun j hj => by
              have := hcol (j + 1) (by simp; omega)
              rwa [show k + (j + 1) = k + 1 + j by omega] at this)
            (fun j v hj hv => by
              have := hacc (j + 1) v (by omega) (by simpa using hv)
              rwa [show k + (j + 1) = k + 1 + j by omega] at this)
            (fun v hv => by
              have := hrej v (by simpa using hv)
              rwa [show k + (i1 + 1) = k + 1 + i1 by omega] at this)
          refine ⟨e1, ⟨o.obj.GObject, it, toInt32 col, gv.GValue⟩ :: ws1, ?_, by simp [hlen],
            by simp [herr], ?_⟩
          · simp only [Gtk.ListStore.Set.loop, hg, listStore_native_some, Gtk.TreeIter.Native,
              hc, hl]
          · intro j v c hj hv hcj
            cases j with
            | zero =>
                simp only [List.getElem?_cons_zero, Option.some.injEq] at hv
                subst hv
                rw [Nat.add_zero, hc] at hcj
                simp only [Option.some.injEq] at hcj
                subst hcj
                exact ⟨gv, by rw [Nat.add_zero, hg], by simp⟩
            | succ j1 =>
                have hv1 : rest[j1]? = some v := by simpa using hv
                have hcj1 : columns[k + 1 + j1]? = some c := by
                  rwa [show k + (j1 + 1) = k + 1 + j1 by omega] at hcj
                obtain ⟨g, hg1, hw⟩ := hws j1 v c (by omega) hv1 hcj1
                refine ⟨g, ?_, by simpa using hw⟩
                rwa [show k + (j1 + 1) = k + 1 + j1 by omega]

/-- C27.  `ListStore.Set` on a non-nil store and iterator: if `len(columns) != len(values)`
it returns an error and makes no native write; otherwise, with `i` the index of the first
value that `glib.GValue` rejects (`i = len(values)` when there is none), it makes the native
writes for the values at the indices `0 .. i-1`, in that order and nothing else, each with
its column (converted to `C.gint`) and the container `glib.GValue` built for the value, and
it returns a non-nil error if and only if `i < len(values)`. -/
theorem ListStore_Set_writes (oks : Nat → Bool) (o : ObjectRef) (tm : Gtk.TreeModel)
    (it : Ptr) (columns : List Int) (values : List HostValue) :
    (columns.length ≠ values.length →
      Gtk.ListStore.Set oks (some ⟨some o, tm⟩) (some it) columns values =
        .ok (some "columns and values lengths do not match", [])) ∧
    (columns.length = values.length → ∀ (i : Nat), i ≤ values.length →
      (∀ (j : Nat) (v : HostValue), j < i → values[j]? = some v →
        (GValue (oks j) v).1.2 = none) →
      (∀ (v : HostValue), values[i]? = some v → (GValue (oks i) v).1.2 ≠ none) →
      ∃ e ws, Gtk.ListStore.Set oks (some ⟨some o, tm⟩) (some it) columns values =
          .ok (e, ws) ∧
        ws.length = i ∧ (e ≠ none ↔ i < values.length) ∧
        ∀ (j : Nat) (v : HostValue) (c : Int), j < i → values[j]? = some v →
          columns[j]? = some c →
          ∃ g, (GValue (oks j) v).1.1 = some g ∧
            ws[j]? = some ⟨o.obj.GObject, it, toInt32 c, g.GValue⟩) := by
  constructor
  · intro h
    simp [Gtk.ListStore.Set, h]
  · intro h i hi hacc hrej
    have hcol : ∀ (j : Nat), j < values.length → ∃ c, columns[0 + j]? = some c := by
      intro j hj
      rw [Nat.zero_add]
      have hlt : j < columns.length := by omega
      exact ⟨columns[j], List.getElem?_eq_getElem hlt⟩
    obtain ⟨e, ws, hl, hlen, herr, hws⟩ := ListStore_loop_writes oks o tm it columns values 0 i hi
      hcol (fun j v hj hv => by rw [Nat.zero_add]; exact hacc j v hj hv)
      (fun v hv => by rw [Nat.zero_add]; exact hrej v hv)
    refine ⟨e, ws, ?_, hlen, herr, ?_⟩
    · simp [Gtk.ListStore.Set, h, hl]
    · intro j v c hj hv hc
      have := hws j v c hj hv (by rw [Nat.zero_add]; exact hc)
      rwa [Nat.zero_add] at this

/-- C27, witness: three columns with an `int`, a `string` and a `bool`, of which the `bool`
is the first value `glib.GValue` rejects (`i = 2`); and two columns with three values. -/
theorem ListStore_Set_writes_witness :
    (∃ e ws, Gtk.ListStore.Set (fun _ => true) (some ⟨some ⟨1, ⟨4096⟩⟩, ⟨some ⟨1, ⟨4096⟩⟩⟩⟩)
          (some 99) [0, 1, 2] [goInt 5, goString [104], .val (.basic .bool) (.bool true)] =
          .ok (e, ws) ∧
        ws.length = 2 ∧ (e ≠ none ↔ 2 < [goInt 5, goString [104],
          HostValue.val (.basic .bool) (.bool true)].length) ∧
        ∀ (j : Nat) (v : HostValue) (c : Int), j < 2 →
          [goInt 5, goString [104], HostValue.val (.basic .bool) (.bool true)][j]? = some v →
          ([0, 1, 2] : List Int)[j]? = some c →
          ∃ g, (GValue ((fun _ => true) j) v).1.1 = some g ∧
            ws[j]? = some ⟨4096, 99, toInt32 c, g.GValue⟩) ∧
    Gtk.ListStore.Set (fun _ => true) (some ⟨some ⟨1, ⟨4096⟩⟩, ⟨some ⟨1, ⟨4096⟩⟩⟩⟩)
        (some 99) [0, 1] [goInt 5, goString [104], goInt 6] =
      .ok (some "columns and values lengths do not match", []) :=
  ⟨(ListStore_Set_writes (fun _ => true) ⟨1, ⟨4096⟩⟩ ⟨some ⟨1, ⟨4096⟩⟩⟩ 99 [0, 1, 2]
      [goInt 5, goString [104], .val (.basic .bool) (.bool true)]).2 rfl 2 (by decide)
      (fun j v hj hv => by
        have hj2 : j = 0 ∨ j = 1 := by omega
        rcases hj2 with h | h <;> subst h <;> simp at hv <;> subst hv <;> decide)
      (fun v hv => by simp at hv; subst hv; decide),
   (ListStore_Set_writes (fun _ => true) ⟨1, ⟨4096⟩⟩ ⟨some ⟨1, ⟨4096⟩⟩⟩ 99 [0, 1]
      [goInt 5, goString [104], goInt 6]).1 (by decide)⟩

/-! ## C28: the model argument of `TreeSelection.GetSelected` -/

/-- C28.  `TreeSelection.GetSelected` does not depend on its model argument: for every
selection, iterator and native result, any two model arguments (nil or not) give the same
outcome; and for a non-nil selection and iterator the call returns `gobool` of the native
result after one native call whose model out-pointer is nil. -/
theorem GetSelected_ignores_model (v : Option Gtk.TreeSelection) (o : ObjectRef)
    (iter : Option Ptr) (it : Ptr) (c : Int) (m1 m2 : Option Gtk.ITreeModel) :
    Gtk.TreeSelection.GetSelected v m1 iter c = Gtk.TreeSelection.GetSelected v m2 iter c ∧
    Gtk.TreeSelection.GetSelected (some ⟨some o⟩) m1 (some it) c =
      .ok (Gtk.gobool c, ⟨o.obj.GObject, none, it⟩) := by
  refine ⟨rfl, ?_⟩
  simp only [Gtk.TreeSelection.GetSelected, Gtk.TreeSelection.Native, Option.map,
    nativeOf_some, Gtk.TreeIter.Native]
  rfl

/-! ## C29: the length passed by the text methods of `EntryBuffer` -/

/-- C29, the code at the failing input.  The text of the two bytes C3 A9 is valid UTF-8 and
has one character (the code point E9).  `SetText`, `InsertText` and `EmitInsertedText` pass
the length 2, the number of bytes, as `n_chars`. -/
theorem EntryBuffer_passes_byte_length :
    Gtk.utf8Decode [195, 169] = some [233] ∧
    Gtk.utf8Chars [195, 169] = some 1 ∧
    Gtk.EntryBuffer.SetText (some ⟨some ⟨1, ⟨4096⟩⟩⟩) [195, 169] =
      .ok (.gtk_entry_buffer_set_text 4096 [195, 169, 0] 2) ∧
    Gtk.EntryBuffer.InsertText (some ⟨some ⟨1, ⟨4096⟩⟩⟩) 0 [195, 169] 1 =
      .ok (1, .gtk_entry_buffer_insert_text 4096 0 [195, 169, 0] 2) ∧
    Gtk.EntryBuffer.EmitInsertedText (some ⟨some ⟨1, ⟨4096⟩⟩⟩) 0 [195, 169] =
      .ok (.gtk_entry_buffer_emit_inserted_text 4096 0 [195, 169, 0] 2) := by
  refine ⟨by decide, by decide, by decide, by decide, by decide⟩

/-! ## C30: the `Type` constants -/

end Gotk3
